import Mathlib

/-!
MouldBot controller: a shallow embedding and its verified properties.

The embedding follows `src/include/Config.h`, `src/include/MouldBotController.h`
and `src/src/MouldBotController.cpp`.

Modelling conventions

* `unsigned long` is 32 bits wide (AVR): values are `Nat`, and every
  addition and subtraction of the source is reduced modulo `2^32`.
* `int` values (menu index, timer index) are `Int`.
* The member variables of `MouldBotController` are the fields of `Controller`.
  Three pieces of the environment are carried along with them: the value
  `millis()` returns (`clock`), the EEPROM cells (`eeprom`) and the static
  local `lastUpdate` of `handleAutoSequence`.
* `delay(ms)` advances `clock` by `ms`; nothing else inside a member function
  advances it.  Between two calls the environment may set `clock` freely.
* The relay expander keeps the level last written to each pin and the list of
  all writes; a relay is on when its pin is `LOW` (active-low wiring).
* The LCD is the list of commands sent to it.
* `Wire`, `pinMode` and the `begin`/`init` calls of the libraries carry no
  state that the controller reads back.
-/

namespace MouldBot

/-! ## Config.h -/

/-- Pin names of the PCF8575 library. -/
def P0 : Nat := 0
def P1 : Nat := 1
def P2 : Nat := 2
def P3 : Nat := 3
def P4 : Nat := 4
def P5 : Nat := 5

def RELAY_STARCH_FEEDER : Nat := P3
def RELAY_PAPER_SHREDDER : Nat := P0
def RELAY_WATER_PUMP : Nat := P5
def RELAY_MIXER : Nat := P4
def RELAY_MIXER_DOOR : Nat := P1
def RELAY_SPARE : Nat := P2

/-- Arduino line levels. -/
def HIGH : Bool := true
def LOW : Bool := false

def EEPROM_MAGIC_NUMBER : Nat := 0xAB
def EEPROM_MAGIC_ADDRESS : Nat := 0
def EEPROM_DATA_ADDRESS : Nat := 1

def DEFAULT_STARCH_TIME : Nat := 5000
def DEFAULT_PAPER_TIME : Nat := 10000
def DEFAULT_WATER_TIME : Nat := 8000
def DEFAULT_MIXING_TIME : Nat := 30000
def DEFAULT_DOOR_TIME : Nat := 5000

def DEBOUNCE_DELAY : Nat := 50
def MIXER_PREP_TIME : Nat := 2000
def DOOR_CLOSE_TIME : Nat := 2000

def MIN_TIMER_VALUE : Nat := 1000
def MAX_TIMER_VALUE : Nat := 300000

/-! ## 32-bit unsigned arithmetic -/

/-- Number of values of an `unsigned long`. -/
def ULONG_MOD : Nat := 4294967296

/-- Sum of two `unsigned long` values. -/
def uadd (a b : Nat) : Nat := (a + b) % ULONG_MOD

/-- Difference of two `unsigned long` values. -/
def usub (a b : Nat) : Nat := (a % ULONG_MOD + (ULONG_MOD - b % ULONG_MOD)) % ULONG_MOD

/-- Size in bytes of an `unsigned long`. -/
def SIZEOF_ULONG : Nat := 4

/-! ## MouldBotController.h -/

structure Timers where
  starchOnTime : Nat
  paperOnTime : Nat
  waterPumpTime : Nat
  mixingTime : Nat
  doorOpenTime : Nat
deriving DecidableEq, Repr

inductive MenuState where
  | MAIN_MENU
  | SETTINGS_MENU
  | RUN_AUTO
  | TEST_MACHINE
  | EDIT_TIMER
deriving DecidableEq, Repr

/-- Values of `enum MainMenuOption`. -/
def SETTINGS : Int := 0
def RUN_AUTO_OPTION : Int := 1
def TEST_MACHINE_OPTION : Int := 2
def MAIN_MENU_COUNT : Int := 3

/-- Values of `enum SettingsOption`. -/
def STARCH_TIMER : Int := 0
def PAPER_TIMER : Int := 1
def WATER_TIMER : Int := 2
def MIXING_TIMER : Int := 3
def DOOR_TIMER : Int := 4
def BACK_TO_MAIN : Int := 5
def SETTINGS_COUNT : Int := 6

/-- Values of `enum TestOption`. -/
def TEST_STARCH : Int := 0
def TEST_PAPER : Int := 1
def TEST_WATER : Int := 2
def TEST_MIXER : Int := 3
def TEST_DOOR : Int := 4
def BACK_FROM_TEST : Int := 5
def TEST_COUNT : Int := 6

inductive AutoState where
  | AUTO_IDLE
  | AUTO_MIXER_PREP
  | AUTO_PAPER_SHREDDER
  | AUTO_STARCH_FEEDER
  | AUTO_WATER_PUMP
  | AUTO_MIXING
  | AUTO_MOULDING_PROMPT
  | AUTO_DOOR_OPEN
  | AUTO_DOOR_CLOSE
  | AUTO_COMPLETE
deriving DecidableEq, Repr

open MenuState AutoState

/-- Commands sent to the LCD. -/
inductive LcdOp where
  | init
  | backlight
  | clear
  | setCursor (col row : Int)
  | print (text : String)
  | printNum (n : Nat)
deriving DecidableEq, Repr

/-- The PCF8575 relay expander: the level last written to each pin and the
list of all writes, oldest first. -/
structure PCF8575 where
  level : Nat → Bool
  writes : List (Nat × Bool)

/-- Effect of `relayExpander.digitalWrite(pin, v)`. -/
def PCF8575.digitalWrite (x : PCF8575) (pin : Nat) (v : Bool) : PCF8575 :=
  { level := fun p => if p = pin then v else x.level p
    writes := x.writes ++ [(pin, v)] }

/-- The EEPROM: one byte per address. -/
abbrev EEPROM := Nat → Fin 256

/-- Effect of `EEPROM.read(addr)`. -/
def EEPROM.read (e : EEPROM) (addr : Nat) : Nat := (e addr).val

/-- Effect of `EEPROM.write(addr, v)`. -/
def EEPROM.write (e : EEPROM) (addr : Nat) (v : Nat) : EEPROM :=
  fun a => if a = addr then ⟨v % 256, Nat.mod_lt v (by decide)⟩ else e a

/-- Effect of `EEPROM.put(addr, v)` for an `unsigned long` value: four bytes, least
significant first. -/
def EEPROM.put (e : EEPROM) (addr : Nat) (v : Nat) : EEPROM :=
  ((((e.write addr (v % 256)).write (addr + 1) (v / 256 % 256)).write
    (addr + 2) (v / 65536 % 256)).write (addr + 3) (v / 16777216 % 256))

/-- Effect of `EEPROM.get(addr, v)` for an `unsigned long` target. -/
def EEPROM.get (e : EEPROM) (addr : Nat) : Nat :=
  e.read addr + 256 * e.read (addr + 1) + 65536 * e.read (addr + 2)
    + 16777216 * e.read (addr + 3)

/-- Digital levels read from the three button pins in one poll. -/
structure Buttons where
  up : Bool
  enter : Bool
  down : Bool
deriving DecidableEq, Repr

/-- The member variables of `MouldBotController` together with the environment
they interact with. -/
structure Controller where
  lcd : List LcdOp
  relayExpander : PCF8575
  timers : Timers
  currentState : MenuState
  currentMenuIndex : Int
  editingTimer : Int
  timerEditValue : Nat
  lastUpState : Bool
  lastEnterState : Bool
  lastDownState : Bool
  lastUpDebounceTime : Nat
  lastEnterDebounceTime : Nat
  lastDownDebounceTime : Nat
  autoState : AutoState
  stateStartTime : Nat
  autoRunning : Bool
  relayStates : List Bool
  lastUpdate : Nat
  eeprom : EEPROM
  clock : Nat

/-! ## MouldBotController.cpp: primitives -/

/-- Value returned by `millis()`. -/
def millis (s : Controller) : Nat := s.clock

/-- Effect of `delay(ms)`. -/
def delay (ms : Nat) (s : Controller) : Controller :=
  { s with clock := uadd s.clock ms }

/-- Effect of a list of LCD commands. -/
def lcdDo (s : Controller) (ops : List LcdOp) : Controller :=
  { s with lcd := s.lcd ++ ops }

/-- Effect of `relayExpander.digitalWrite(pin, v)` on the controller. -/
def relayWrite (s : Controller) (pin : Nat) (v : Bool) : Controller :=
  { s with relayExpander := s.relayExpander.digitalWrite pin v }

def allRelaysOff (s : Controller) : Controller :=
  let s := delay 50 (relayWrite s RELAY_STARCH_FEEDER HIGH)
  let s := delay 50 (relayWrite s RELAY_PAPER_SHREDDER HIGH)
  let s := delay 50 (relayWrite s RELAY_WATER_PUMP HIGH)
  let s := delay 50 (relayWrite s RELAY_MIXER HIGH)
  let s := delay 50 (relayWrite s RELAY_MIXER_DOOR HIGH)
  delay 50 (relayWrite s RELAY_SPARE HIGH)

def setRelay (s : Controller) (pin : Nat) (state : Bool) : Controller :=
  delay 50 (relayWrite s pin (if state then LOW else HIGH))

/-- A relay is on when its pin is driven `LOW`. -/
def relayOn (s : Controller) (pin : Nat) : Prop := s.relayExpander.level pin = LOW

instance (s : Controller) (pin : Nat) : Decidable (relayOn s pin) := by
  unfold relayOn; exact inferInstance

/-! ## MouldBotController.cpp: display -/

/-- Marker printed in front of a menu row. -/
def cursorMark (selected : Bool) : String := if selected then "> " else "  "

def displayMainMenu (s : Controller) : Controller :=
  lcdDo s
    [ .clear, .setCursor 0 0, .print "==== MAIN MENU ====",
      .setCursor 0 1, .print (cursorMark (s.currentMenuIndex == SETTINGS)), .print "Settings",
      .setCursor 0 2, .print (cursorMark (s.currentMenuIndex == RUN_AUTO_OPTION)), .print "Run Auto",
      .setCursor 0 3, .print (cursorMark (s.currentMenuIndex == TEST_MACHINE_OPTION)),
      .print "Test Machine" ]

/-- The `switch (idx)` of `displaySettingsMenu`. -/
def settingsEntry (t : Timers) (idx : Int) : List LcdOp :=
  if idx = STARCH_TIMER then [.print "Starch:", .printNum (t.starchOnTime / 1000), .print "s"]
  else if idx = PAPER_TIMER then [.print "Paper:", .printNum (t.paperOnTime / 1000), .print "s"]
  else if idx = WATER_TIMER then [.print "Water:", .printNum (t.waterPumpTime / 1000), .print "s"]
  else if idx = MIXING_TIMER then [.print "Mixing:", .printNum (t.mixingTime / 1000), .print "s"]
  else if idx = DOOR_TIMER then [.print "Door:", .printNum (t.doorOpenTime / 1000), .print "s"]
  else if idx = BACK_TO_MAIN then [.print "Back"]
  else []

/-- The `for` loop of `displaySettingsMenu`, from iteration `i`, at most `fuel`
iterations (the loop runs at most three). -/
def settingsRows (s : Controller) (startIdx : Int) (i : Int) : Nat → List LcdOp
  | 0 => []
  | fuel + 1 =>
    if i < 3 ∧ (startIdx + i - s.currentMenuIndex + s.currentMenuIndex) < SETTINGS_COUNT then
      let idx := startIdx + i
      if idx ≥ SETTINGS_COUNT then []
      else
        [.setCursor 0 (i + 1), .print (cursorMark (idx == s.currentMenuIndex))]
          ++ settingsEntry s.timers idx ++ settingsRows s startIdx (i + 1) fuel
    else []

def displaySettingsMenu (s : Controller) : Controller :=
  let startIdx := if s.currentMenuIndex > 3 then 3 else s.currentMenuIndex
  lcdDo s ([.clear, .setCursor 0 0, .print "===== SETTINGS ====="] ++ settingsRows s startIdx 0 3)

/-- The `switch (idx)` of `displayTestMenu`. -/
def testEntry (r : List Bool) (idx : Int) : List LcdOp :=
  if idx = TEST_STARCH then [.print "Starch:", .print (if r.getD 0 false then "ON " else "OFF")]
  else if idx = TEST_PAPER then [.print "Paper:", .print (if r.getD 1 false then "ON " else "OFF")]
  else if idx = TEST_WATER then [.print "Water:", .print (if r.getD 2 false then "ON " else "OFF")]
  else if idx = TEST_MIXER then [.print "Mixer:", .print (if r.getD 3 false then "ON " else "OFF")]
  else if idx = TEST_DOOR then [.print "Door:", .print (if r.getD 4 false then "OPEN" else "CLOSE")]
  else if idx = BACK_FROM_TEST then [.print "Back"]
  else []

/-- The `for` loop of `displayTestMenu`, from iteration `i`, at most `fuel`
iterations (the loop runs at most three). -/
def testRows (s : Controller) (startIdx : Int) (i : Int) : Nat → List LcdOp
  | 0 => []
  | fuel + 1 =>
    if i < 3 ∧ (startIdx + i) < TEST_COUNT then
      let idx := startIdx + i
      if idx ≥ TEST_COUNT then []
      else
        [.setCursor 0 (i + 1), .print (cursorMark (idx == s.currentMenuIndex))]
          ++ testEntry s.relayStates idx ++ testRows s startIdx (i + 1) fuel
    else []

def displayTestMenu (s : Controller) : Controller :=
  let startIdx := if s.currentMenuIndex > 3 then 3 else s.currentMenuIndex
  lcdDo s ([.clear, .setCursor 0 0, .print "==== TEST MODE ===="] ++ testRows s startIdx 0 3)

/-- The `switch (editingTimer)` of `displayTimerEdit`. -/
def timerTitle (idx : Int) : List LcdOp :=
  if idx = STARCH_TIMER then [.print "Starch Timer"]
  else if idx = PAPER_TIMER then [.print "Paper Timer"]
  else if idx = WATER_TIMER then [.print "Water Timer"]
  else if idx = MIXING_TIMER then [.print "Mixing Timer"]
  else if idx = DOOR_TIMER then [.print "Door Timer"]
  else []

def displayTimerEdit (s : Controller) : Controller :=
  lcdDo s
    ([.clear, .setCursor 0 0, .print "=== EDIT TIMER ===", .setCursor 0 1]
      ++ timerTitle s.editingTimer
      ++ [.setCursor 0 2, .print "Value: ", .printNum (s.timerEditValue / 1000), .print " sec",
          .setCursor 0 3, .print "Up/Down: +/-1s"])

/-- Text printed on row 1 by the `switch (autoState)` of `displayAutoStatus`. -/
def autoStatusText : AutoState → List LcdOp
  | AUTO_IDLE => [.print "Status: Idle"]
  | AUTO_MIXER_PREP => [.print "Status: Mixer Prep"]
  | AUTO_PAPER_SHREDDER => [.print "Status: Paper Feed"]
  | AUTO_STARCH_FEEDER => [.print "Status: Starch Feed"]
  | AUTO_WATER_PUMP => [.print "Status: Water Pump"]
  | AUTO_MIXING => [.print "Status: Mixing"]
  | AUTO_MOULDING_PROMPT => [.print "Add Mould & Press", .setCursor 0 2, .print "ENTER to continue"]
  | AUTO_DOOR_OPEN => [.print "Status: Door Open"]
  | AUTO_DOOR_CLOSE => [.print "Status: Door Close"]
  | AUTO_COMPLETE => [.print "Status: Complete", .setCursor 0 2, .print "Press ENTER"]

/-- Value of the local `remaining` of `displayAutoStatus` when the function
reaches its `Time Left` line; `none` in the two cases that return before it. -/
def autoRemaining (s : Controller) : Option Nat :=
  let elapsed := usub (millis s) s.stateStartTime
  match s.autoState with
  | AUTO_IDLE => some 0
  | AUTO_MIXER_PREP => some (usub MIXER_PREP_TIME elapsed / 1000)
  | AUTO_PAPER_SHREDDER => some (usub s.timers.paperOnTime elapsed / 1000)
  | AUTO_STARCH_FEEDER => some (usub s.timers.starchOnTime elapsed / 1000)
  | AUTO_WATER_PUMP => some (usub s.timers.waterPumpTime elapsed / 1000)
  | AUTO_MIXING => some (usub s.timers.mixingTime elapsed / 1000)
  | AUTO_MOULDING_PROMPT => none
  | AUTO_DOOR_OPEN => some (usub s.timers.doorOpenTime elapsed / 1000)
  | AUTO_DOOR_CLOSE => some (usub DOOR_CLOSE_TIME elapsed / 1000)
  | AUTO_COMPLETE => none

def displayAutoStatus (s : Controller) : Controller :=
  lcdDo s
    ([.clear, .setCursor 0 0, .print "=== AUTO RUNNING ===", .setCursor 0 1]
      ++ autoStatusText s.autoState
      ++ (match autoRemaining s with
          | some remaining =>
            [.setCursor 0 2, .print "Time Left: ", .printNum remaining, .print "s  "]
          | none => []))

/-! ## MouldBotController.cpp: EEPROM -/

def setDefaultTimers (s : Controller) : Controller :=
  { s with timers :=
      { starchOnTime := DEFAULT_STARCH_TIME
        paperOnTime := DEFAULT_PAPER_TIME
        waterPumpTime := DEFAULT_WATER_TIME
        mixingTime := DEFAULT_MIXING_TIME
        doorOpenTime := DEFAULT_DOOR_TIME } }

def saveTimersToEEPROM (s : Controller) : Controller :=
  let e := s.eeprom.write EEPROM_MAGIC_ADDRESS EEPROM_MAGIC_NUMBER
  let address := EEPROM_DATA_ADDRESS
  let e := e.put address s.timers.starchOnTime
  let address := address + SIZEOF_ULONG
  let e := e.put address s.timers.paperOnTime
  let address := address + SIZEOF_ULONG
  let e := e.put address s.timers.waterPumpTime
  let address := address + SIZEOF_ULONG
  let e := e.put address s.timers.mixingTime
  let address := address + SIZEOF_ULONG
  let e := e.put address s.timers.doorOpenTime
  { s with eeprom := e }

def loadTimersFromEEPROM (s : Controller) : Controller :=
  let magicNumber := s.eeprom.read EEPROM_MAGIC_ADDRESS
  if magicNumber = EEPROM_MAGIC_NUMBER then
    let address := EEPROM_DATA_ADDRESS
    let starch := s.eeprom.get address
    let address := address + SIZEOF_ULONG
    let paper := s.eeprom.get address
    let address := address + SIZEOF_ULONG
    let water := s.eeprom.get address
    let address := address + SIZEOF_ULONG
    let mixing := s.eeprom.get address
    let address := address + SIZEOF_ULONG
    let door := s.eeprom.get address
    { s with timers :=
        { starchOnTime := starch
          paperOnTime := paper
          waterPumpTime := water
          mixingTime := mixing
          doorOpenTime := door } }
  else
    saveTimersToEEPROM (setDefaultTimers s)

/-! ## MouldBotController.cpp: settings and test mode -/

def enterTimerEdit (s : Controller) (timerIndex : Int) : Controller :=
  let s := { s with editingTimer := timerIndex, currentState := EDIT_TIMER }
  let s :=
    if timerIndex = STARCH_TIMER then { s with timerEditValue := s.timers.starchOnTime }
    else if timerIndex = PAPER_TIMER then { s with timerEditValue := s.timers.paperOnTime }
    else if timerIndex = WATER_TIMER then { s with timerEditValue := s.timers.waterPumpTime }
    else if timerIndex = MIXING_TIMER then { s with timerEditValue := s.timers.mixingTime }
    else if timerIndex = DOOR_TIMER then { s with timerEditValue := s.timers.doorOpenTime }
    else s
  displayTimerEdit s

def saveTimerEdit (s : Controller) : Controller :=
  let s :=
    if s.editingTimer = STARCH_TIMER then
      { s with timers := { s.timers with starchOnTime := s.timerEditValue } }
    else if s.editingTimer = PAPER_TIMER then
      { s with timers := { s.timers with paperOnTime := s.timerEditValue } }
    else if s.editingTimer = WATER_TIMER then
      { s with timers := { s.timers with waterPumpTime := s.timerEditValue } }
    else if s.editingTimer = MIXING_TIMER then
      { s with timers := { s.timers with mixingTime := s.timerEditValue } }
    else if s.editingTimer = DOOR_TIMER then
      { s with timers := { s.timers with doorOpenTime := s.timerEditValue } }
    else s
  { s with editingTimer := -1 }

/-- Value of `relayStates[relayIndex]`; an index outside the array reads `false`. -/
def relayStateAt (s : Controller) (relayIndex : Int) : Bool :=
  if 0 ≤ relayIndex ∧ relayIndex < 5 then s.relayStates.getD relayIndex.toNat false else false

/-- The array access of `toggleTestRelay` is undefined in C++ for an index outside
`0..4`; here such a write leaves the array as it is. -/
def toggleTestRelay (s : Controller) (relayIndex : Int) : Controller :=
  let s :=
    if 0 ≤ relayIndex ∧ relayIndex < 5 then
      { s with relayStates := s.relayStates.set relayIndex.toNat (!relayStateAt s relayIndex) }
    else s
  let s :=
    if relayIndex = TEST_STARCH then setRelay s RELAY_STARCH_FEEDER (relayStateAt s relayIndex)
    else if relayIndex = TEST_PAPER then setRelay s RELAY_PAPER_SHREDDER (relayStateAt s relayIndex)
    else if relayIndex = TEST_WATER then setRelay s RELAY_WATER_PUMP (relayStateAt s relayIndex)
    else if relayIndex = TEST_MIXER then setRelay s RELAY_MIXER (relayStateAt s relayIndex)
    else if relayIndex = TEST_DOOR then setRelay s RELAY_MIXER_DOOR (relayStateAt s relayIndex)
    else s
  displayTestMenu s

/-! ## MouldBotController.cpp: the automatic run -/

def startAutoRun (s : Controller) : Controller :=
  let s := { s with currentState := RUN_AUTO, autoRunning := true, autoState := AUTO_MIXER_PREP }
  let s := { s with stateStartTime := millis s }
  let s := allRelaysOff s
  let s := setRelay s RELAY_MIXER true
  displayAutoStatus s

/-- The `switch (autoState)` of `handleAutoSequence`; `currentTime` is the clock
value sampled on entry. -/
def autoSwitch (s : Controller) (currentTime : Nat) : Controller :=
  let elapsed := usub currentTime s.stateStartTime
  match s.autoState with
  | AUTO_IDLE => s
  | AUTO_MIXER_PREP =>
    if elapsed ≥ MIXER_PREP_TIME then
      let s := { s with autoState := AUTO_PAPER_SHREDDER, stateStartTime := currentTime }
      let s := setRelay s RELAY_PAPER_SHREDDER true
      displayAutoStatus s
    else s
  | AUTO_PAPER_SHREDDER =>
    if elapsed ≥ s.timers.paperOnTime then
      let s := setRelay s RELAY_PAPER_SHREDDER false
      let s := delay 100 s
      let s := { s with autoState := AUTO_STARCH_FEEDER, stateStartTime := currentTime }
      let s := setRelay s RELAY_STARCH_FEEDER true
      displayAutoStatus s
    else s
  | AUTO_STARCH_FEEDER =>
    if elapsed ≥ s.timers.starchOnTime then
      let s := setRelay s RELAY_STARCH_FEEDER false
      let s := delay 100 s
      let s := { s with autoState := AUTO_WATER_PUMP, stateStartTime := currentTime }
      let s := setRelay s RELAY_WATER_PUMP true
      displayAutoStatus s
    else s
  | AUTO_WATER_PUMP =>
    if elapsed ≥ s.timers.waterPumpTime then
      let s := setRelay s RELAY_WATER_PUMP false
      let s := { s with autoState := AUTO_MIXING, stateStartTime := currentTime }
      displayAutoStatus s
    else s
  | AUTO_MIXING =>
    if elapsed ≥ s.timers.mixingTime then
      let s := { s with autoState := AUTO_MOULDING_PROMPT }
      displayAutoStatus s
    else s
  | AUTO_MOULDING_PROMPT => s
  | AUTO_DOOR_OPEN =>
    if elapsed ≥ s.timers.doorOpenTime then
      let s := setRelay s RELAY_MIXER_DOOR false
      let s := { s with autoState := AUTO_DOOR_CLOSE, stateStartTime := currentTime }
      displayAutoStatus s
    else s
  | AUTO_DOOR_CLOSE =>
    if elapsed ≥ DOOR_CLOSE_TIME then
      let s := { s with autoState := AUTO_MOULDING_PROMPT }
      displayAutoStatus s
    else s
  | AUTO_COMPLETE => s

def handleAutoSequence (s : Controller) : Controller :=
  let currentTime := millis s
  let s := autoSwitch s currentTime
  if s.autoState ≠ AUTO_MOULDING_PROMPT ∧ s.autoState ≠ AUTO_COMPLETE then
    if usub currentTime s.lastUpdate ≥ 1000 then
      let s := displayAutoStatus s
      { s with lastUpdate := currentTime }
    else s
  else s

/-! ## MouldBotController.cpp: buttons -/

def onUpPressed (s : Controller) : Controller :=
  if s.currentState = MAIN_MENU then
    displayMainMenu
      { s with currentMenuIndex := (s.currentMenuIndex - 1 + MAIN_MENU_COUNT).tmod MAIN_MENU_COUNT }
  else if s.currentState = SETTINGS_MENU then
    displaySettingsMenu
      { s with currentMenuIndex := (s.currentMenuIndex - 1 + SETTINGS_COUNT).tmod SETTINGS_COUNT }
  else if s.currentState = TEST_MACHINE then
    displayTestMenu
      { s with currentMenuIndex := (s.currentMenuIndex - 1 + TEST_COUNT).tmod TEST_COUNT }
  else if s.currentState = EDIT_TIMER then
    let s := { s with timerEditValue := uadd s.timerEditValue 1000 }
    let s := if s.timerEditValue > MAX_TIMER_VALUE then { s with timerEditValue := MAX_TIMER_VALUE } else s
    displayTimerEdit s
  else s

def onDownPressed (s : Controller) : Controller :=
  if s.currentState = MAIN_MENU then
    displayMainMenu { s with currentMenuIndex := (s.currentMenuIndex + 1).tmod MAIN_MENU_COUNT }
  else if s.currentState = SETTINGS_MENU then
    displaySettingsMenu { s with currentMenuIndex := (s.currentMenuIndex + 1).tmod SETTINGS_COUNT }
  else if s.currentState = TEST_MACHINE then
    displayTestMenu { s with currentMenuIndex := (s.currentMenuIndex + 1).tmod TEST_COUNT }
  else if s.currentState = EDIT_TIMER then
    let s := { s with timerEditValue := usub s.timerEditValue 1000 }
    let s := if s.timerEditValue < MIN_TIMER_VALUE then { s with timerEditValue := MIN_TIMER_VALUE } else s
    displayTimerEdit s
  else s

def onEnterPressed (s : Controller) : Controller :=
  if s.currentState = MAIN_MENU then
    if s.currentMenuIndex = SETTINGS then
      displaySettingsMenu { s with currentState := SETTINGS_MENU, currentMenuIndex := 0 }
    else if s.currentMenuIndex = RUN_AUTO_OPTION then
      startAutoRun s
    else if s.currentMenuIndex = TEST_MACHINE_OPTION then
      displayTestMenu { s with currentState := TEST_MACHINE, currentMenuIndex := 0 }
    else s
  else if s.currentState = SETTINGS_MENU then
    if s.currentMenuIndex = BACK_TO_MAIN then
      displayMainMenu { s with currentState := MAIN_MENU, currentMenuIndex := 0 }
    else
      enterTimerEdit s s.currentMenuIndex
  else if s.currentState = TEST_MACHINE then
    if s.currentMenuIndex = BACK_FROM_TEST then
      let s := allRelaysOff s
      let s := { s with relayStates := [false, false, false, false, false] }
      displayMainMenu { s with currentState := MAIN_MENU, currentMenuIndex := 0 }
    else
      toggleTestRelay s s.currentMenuIndex
  else if s.currentState = EDIT_TIMER then
    let s := saveTimerEdit s
    let s := saveTimersToEEPROM s
    displaySettingsMenu { s with currentState := SETTINGS_MENU }
  else if s.currentState = RUN_AUTO then
    if s.autoState = AUTO_MOULDING_PROMPT then
      let s := { s with autoState := AUTO_DOOR_OPEN }
      let s := { s with stateStartTime := millis s }
      let s := setRelay s RELAY_MIXER_DOOR true
      displayAutoStatus s
    else if s.autoState = AUTO_COMPLETE then
      let s := { s with autoRunning := false }
      let s := allRelaysOff s
      displayMainMenu { s with currentState := MAIN_MENU, currentMenuIndex := 0 }
    else s
  else s

/-- The emergency-stop branch of `handleButtons`. -/
def emergencyStop (s : Controller) : Controller :=
  let s := { s with autoRunning := false }
  let s := allRelaysOff s
  let s := { s with currentState := MAIN_MENU, currentMenuIndex := 0 }
  let s := lcdDo s [.clear, .setCursor 0 1, .print "AUTO RUN STOPPED!"]
  let s := delay 1500 s
  displayMainMenu s

/-- The `Handle UP button` block of `handleButtons`. -/
def handleUpButton (s : Controller) (currentTime : Nat) (upReading : Bool) : Controller :=
  let s :=
    if upReading = true ∧ s.lastUpState = false then
      if usub currentTime s.lastUpDebounceTime > DEBOUNCE_DELAY then
        { onUpPressed s with lastUpDebounceTime := currentTime }
      else s
    else s
  { s with lastUpState := upReading }

/-- The `Handle ENTER button` block of `handleButtons`. -/
def handleEnterButton (s : Controller) (currentTime : Nat) (enterReading : Bool) : Controller :=
  let s :=
    if enterReading = true ∧ s.lastEnterState = false then
      if usub currentTime s.lastEnterDebounceTime > DEBOUNCE_DELAY then
        { onEnterPressed s with lastEnterDebounceTime := currentTime }
      else s
    else s
  { s with lastEnterState := enterReading }

/-- The `Handle DOWN button` block of `handleButtons`. -/
def handleDownButton (s : Controller) (currentTime : Nat) (downReading : Bool) : Controller :=
  let s :=
    if downReading = true ∧ s.lastDownState = false then
      if usub currentTime s.lastDownDebounceTime > DEBOUNCE_DELAY then
        { onDownPressed s with lastDownDebounceTime := currentTime }
      else s
    else s
  { s with lastDownState := downReading }

/-- One poll of the buttons; `b` holds the levels `digitalRead` returns. -/
def handleButtons (s : Controller) (b : Buttons) : Controller :=
  let currentTime := millis s
  let upReading := (b.up == LOW)
  let enterReading := (b.enter == LOW)
  let downReading := (b.down == LOW)
  if s.currentState = RUN_AUTO ∧ s.autoRunning = true ∧ upReading = true ∧ enterReading = true
      ∧ downReading = true then
    emergencyStop s
  else
    let s := handleUpButton s currentTime upReading
    let s := handleEnterButton s currentTime enterReading
    handleDownButton s currentTime downReading

/-- One call of `update()`; `b` holds the button levels read during it. -/
def update (s : Controller) (b : Buttons) : Controller :=
  let s := handleButtons s b
  if s.currentState = RUN_AUTO ∧ s.autoRunning = true then handleAutoSequence s else s

/-- The constructor: `mem` holds the members it leaves unassigned and the
environment. -/
def MouldBotController (mem : Controller) : Controller :=
  { mem with
    currentState := MAIN_MENU
    currentMenuIndex := 0
    editingTimer := -1
    lastUpState := HIGH
    lastEnterState := HIGH
    lastDownState := HIGH
    lastUpDebounceTime := 0
    lastEnterDebounceTime := 0
    lastDownDebounceTime := 0
    relayStates := [false, false, false, false, false] }

def begin (s : Controller) : Controller :=
  let s := lcdDo s [.init, .backlight]
  let s := allRelaysOff s
  let s := lcdDo s [.clear, .setCursor 0 0, .print "   MouldBot v1.0   ", .setCursor 0 1,
    .print "  Initializing...  "]
  let s := delay 1000 s
  let s := lcdDo s [.setCursor 0 2, .print "Loading Settings... "]
  let s := loadTimersFromEEPROM s
  let s := delay 1000 s
  displayMainMenu s

/-- The environment sets the clock between two calls. -/
def setClock (s : Controller) (t : Nat) : Controller := { s with clock := t % ULONG_MOD }

/-- All three buttons held down (the pins read `LOW`). -/
def allPressed : Buttons := { up := LOW, enter := LOW, down := LOW }

/-- No button held down. -/
def nonePressed : Buttons := { up := HIGH, enter := HIGH, down := HIGH }

/-- The five relays of the machine are all off. -/
def allFiveOff (s : Controller) : Prop :=
  ¬ relayOn s RELAY_STARCH_FEEDER ∧ ¬ relayOn s RELAY_PAPER_SHREDDER ∧
  ¬ relayOn s RELAY_WATER_PUMP ∧ ¬ relayOn s RELAY_MIXER ∧ ¬ relayOn s RELAY_MIXER_DOOR

/-! ## Sample states -/

/-- Memory at power-on: the members zero-initialised (static storage), every
expander pin high, an erased EEPROM, the clock at zero. -/
def powerOnMemory : Controller :=
  { lcd := []
    relayExpander := { level := fun _ => HIGH, writes := [] }
    timers := { starchOnTime := 0, paperOnTime := 0, waterPumpTime := 0, mixingTime := 0,
                doorOpenTime := 0 }
    currentState := MAIN_MENU
    currentMenuIndex := 0
    editingTimer := 0
    timerEditValue := 0
    lastUpState := false
    lastEnterState := false
    lastDownState := false
    lastUpDebounceTime := 0
    lastEnterDebounceTime := 0
    lastDownDebounceTime := 0
    autoState := AUTO_IDLE
    stateStartTime := 0
    autoRunning := false
    relayStates := [false, false, false, false, false]
    lastUpdate := 0
    eeprom := fun _ => 255
    clock := 0 }

/-- The controller after construction and `begin()` on a fresh board. -/
def freshBoard : Controller := begin (MouldBotController powerOnMemory)

/-- A run started on a fresh board at clock value 2300 and polled again at 4500:
2200 ms have elapsed and the mixer-prep deadline (2000 ms) has passed. -/
def overduePrep : Controller := setClock (startAutoRun freshBoard) 4500

/-- The relays that are on, among feeder, shredder, pump, mixer and door (in
this order). -/
def relaysLit (s : Controller) : List Nat :=
  [RELAY_STARCH_FEEDER, RELAY_PAPER_SHREDDER, RELAY_WATER_PUMP, RELAY_MIXER,
    RELAY_MIXER_DOOR].filter (fun pin => s.relayExpander.level pin == LOW)

/-- Durations of the sample run: shredder 2000, feeder 3000, pump 1000, mixer 500,
door 1000. -/
def sampleTimers : Timers :=
  { starchOnTime := 3000, paperOnTime := 2000, waterPumpTime := 1000, mixingTime := 500,
    doorOpenTime := 1000 }

/-- The sample run, started at clock value 2300. -/
def run0 : Controller := startAutoRun { freshBoard with timers := sampleTimers }

/-- The sample run polled when each deadline is reached, with an Enter press at
clock value 20000. -/
def run1 : Controller := handleAutoSequence (setClock run0 4300)
def run2 : Controller := handleAutoSequence (setClock run1 6300)
def run3 : Controller := handleAutoSequence (setClock run2 9300)
def run4 : Controller := handleAutoSequence (setClock run3 10300)
def run5 : Controller := handleAutoSequence (setClock run4 10800)
def run6 : Controller := onEnterPressed (setClock run5 20000)
def run7 : Controller := handleAutoSequence (setClock run6 21000)
def run8 : Controller := handleAutoSequence (setClock run7 23000)

/-- Every field fits an `unsigned long`. -/
def Timers.fits32 (t : Timers) : Prop :=
  t.starchOnTime < ULONG_MOD ∧ t.paperOnTime < ULONG_MOD ∧ t.waterPumpTime < ULONG_MOD ∧
  t.mixingTime < ULONG_MOD ∧ t.doorOpenTime < ULONG_MOD

instance (t : Timers) : Decidable t.fits32 := by
  unfold Timers.fits32; exact inferInstance

/-- Every field lies between `MIN_TIMER_VALUE` and `MAX_TIMER_VALUE`. -/
def Timers.inRange (t : Timers) : Prop :=
  (MIN_TIMER_VALUE ≤ t.starchOnTime ∧ t.starchOnTime ≤ MAX_TIMER_VALUE) ∧
  (MIN_TIMER_VALUE ≤ t.paperOnTime ∧ t.paperOnTime ≤ MAX_TIMER_VALUE) ∧
  (MIN_TIMER_VALUE ≤ t.waterPumpTime ∧ t.waterPumpTime ≤ MAX_TIMER_VALUE) ∧
  (MIN_TIMER_VALUE ≤ t.mixingTime ∧ t.mixingTime ≤ MAX_TIMER_VALUE) ∧
  (MIN_TIMER_VALUE ≤ t.doorOpenTime ∧ t.doorOpenTime ≤ MAX_TIMER_VALUE)

instance (t : Timers) : Decidable t.inRange := by
  unfold Timers.inRange; exact inferInstance

/-- The five durations as the EEPROM cells 1..20 hold them. -/
def storedTimers (e : EEPROM) : Timers :=
  { starchOnTime := e.get 1
    paperOnTime := e.get 5
    waterPumpTime := e.get 9
    mixingTime := e.get 13
    doorOpenTime := e.get 17 }

/-- The default durations of `Config.h`. -/
def defaultTimers : Timers :=
  { starchOnTime := 5000, paperOnTime := 10000, waterPumpTime := 8000, mixingTime := 30000,
    doorOpenTime := 5000 }

/-- A board whose EEPROM holds the marker followed by zero bytes. -/
def zeroedBoard : Controller :=
  { powerOnMemory with eeprom := fun a => if a = 0 then 0xAB else 0 }

/-- A board whose EEPROM holds the marker followed by erased (0xFF) bytes. -/
def erasedDataBoard : Controller :=
  { powerOnMemory with eeprom := fun a => if a = 0 then 0xAB else 0xFF }

/-- A board whose memory holds the sample durations and whose EEPROM is erased. -/
def sampleBoard : Controller := { powerOnMemory with timers := sampleTimers }

/-- A board switched on with the EEPROM left by saving the sample durations: the
timers in memory are all zero. -/
def rebootedBoard : Controller :=
  { powerOnMemory with eeprom := (saveTimersToEEPROM sampleBoard).eeprom }

/-- The sample run displayed 2001 ms into mixer prep, 1 ms after its deadline. -/
def overdueDisplay : Controller := setClock run0 4301

/-- Only the Down button held down. -/
def downOnly : Buttons := { up := HIGH, enter := HIGH, down := LOW }

/-- Only the Enter button held down. -/
def enterOnly : Buttons := { up := HIGH, enter := LOW, down := HIGH }

/-- A board whose EEPROM holds the marker followed by zero bytes is switched on, the
operator selects Run Auto with Down and Enter, and the run is polled 2700 ms after its
start. -/
def zeroedRun : Controller :=
  let s := begin (MouldBotController zeroedBoard)
  let s := update (setClock s 3000) nonePressed
  let s := update (setClock s 3100) downOnly
  let s := update (setClock s 3200) nonePressed
  let s := update (setClock s 3300) enterOnly
  update (setClock s 6000) nonePressed

/-- States of a run: `startAutoRun` from any state, followed by any sequence of clock
changes, `handleAutoSequence` ticks, Up, Down and Enter presses, button polls
(emergency stop included) and whole `update()` calls. -/
inductive Reachable : Controller → Prop where
  | start (s0 : Controller) : Reachable (startAutoRun s0)
  | clock (s : Controller) (t : Nat) : Reachable s → Reachable (setClock s t)
  | tick (s : Controller) : Reachable s → Reachable (handleAutoSequence s)
  | up (s : Controller) : Reachable s → Reachable (onUpPressed s)
  | down (s : Controller) : Reachable s → Reachable (onDownPressed s)
  | enter (s : Controller) : Reachable s → Reachable (onEnterPressed s)
  | buttons (s : Controller) (b : Buttons) : Reachable s → Reachable (handleButtons s b)
  | update (s : Controller) (b : Buttons) : Reachable s → Reachable (update s b)

/-- While `autoRunning` is set the controller is in `RUN_AUTO` and the mixer is on. -/
def runningInv (s : Controller) : Prop :=
  s.autoRunning = true → s.currentState = RUN_AUTO ∧ relayOn s RELAY_MIXER

/-- A controller editing the starch timer with `v` in `timerEditValue`. -/
def editBoard (v : Nat) : Controller :=
  { freshBoard with currentState := EDIT_TIMER, editingTimer := STARCH_TIMER, timerEditValue := v }

/-- A button press in edit mode. -/
inductive EditPress where
  | up
  | down
deriving DecidableEq, Repr

/-- The handler a press invokes. -/
def pressOnce (s : Controller) : EditPress → Controller
  | .up => onUpPressed s
  | .down => onDownPressed s

/-- A sequence of Up and Down presses, first press first. -/
def pressAll (s : Controller) (presses : List EditPress) : Controller :=
  presses.foldl pressOnce s

/-- The value lies between `MIN_TIMER_VALUE` and `MAX_TIMER_VALUE`. -/
def timerInRange (v : Nat) : Prop := MIN_TIMER_VALUE ≤ v ∧ v ≤ MAX_TIMER_VALUE

instance (v : Nat) : Decidable (timerInRange v) := by
  unfold timerInRange; exact inferInstance

/-- The main menu with Run Auto selected while every relay pin is low (all relays
on). -/
def relaysLeftOn : Controller :=
  { freshBoard with
    currentMenuIndex := RUN_AUTO_OPTION
    relayExpander := { level := fun _ => LOW, writes := [] } }

/-- The mixer is on, and each of shredder, feeder, pump and door is on exactly in its
own phase. -/
def relaysMatchPhase (s : Controller) : Prop :=
  relayOn s RELAY_MIXER ∧
  (relayOn s RELAY_PAPER_SHREDDER ↔ s.autoState = AUTO_PAPER_SHREDDER) ∧
  (relayOn s RELAY_STARCH_FEEDER ↔ s.autoState = AUTO_STARCH_FEEDER) ∧
  (relayOn s RELAY_WATER_PUMP ↔ s.autoState = AUTO_WATER_PUMP) ∧
  (relayOn s RELAY_MIXER_DOOR ↔ s.autoState = AUTO_DOOR_OPEN)

/-- The invariant of a run: `autoRunning` is set exactly in `RUN_AUTO`, `autoState` is
neither `AUTO_IDLE` nor `AUTO_COMPLETE`, and while `autoRunning` is set the relays
match the phase. -/
def phaseInv (s : Controller) : Prop :=
  (s.autoRunning = true ↔ s.currentState = RUN_AUTO) ∧
  s.autoState ≠ AUTO_IDLE ∧ s.autoState ≠ AUTO_COMPLETE ∧
  (s.autoRunning = true → relaysMatchPhase s)

/-- The relays that are on in each phase of a run, in the order of `relaysLit`;
`none` for the two phases a run never takes. -/
def phaseRelays : AutoState → Option (List Nat)
  | AUTO_IDLE => none
  | AUTO_MIXER_PREP => some [RELAY_MIXER]
  | AUTO_PAPER_SHREDDER => some [RELAY_PAPER_SHREDDER, RELAY_MIXER]
  | AUTO_STARCH_FEEDER => some [RELAY_STARCH_FEEDER, RELAY_MIXER]
  | AUTO_WATER_PUMP => some [RELAY_WATER_PUMP, RELAY_MIXER]
  | AUTO_MIXING => some [RELAY_MIXER]
  | AUTO_MOULDING_PROMPT => some [RELAY_MIXER]
  | AUTO_DOOR_OPEN => some [RELAY_MIXER, RELAY_MIXER_DOOR]
  | AUTO_DOOR_CLOSE => some [RELAY_MIXER]
  | AUTO_COMPLETE => none

/-- The sample run stopped by the emergency stop while it waits in the prompt. -/
def stoppedRun : Controller := update run8 allPressed

/-- The mixing timer opened for editing from the settings menu of a fresh board
(30000 ms) and raised once with Up (31000 ms). -/
def editMixing : Controller :=
  onUpPressed
    (enterTimerEdit { freshBoard with currentState := SETTINGS_MENU, currentMenuIndex := MIXING_TIMER }
      MIXING_TIMER)

/-- The duration `handleAutoSequence` compares the elapsed time with in each timed
phase; `none` in the phases that have no deadline. -/
def phaseDeadline (s : Controller) : Option Nat :=
  match s.autoState with
  | AUTO_IDLE => none
  | AUTO_MIXER_PREP => some MIXER_PREP_TIME
  | AUTO_PAPER_SHREDDER => some s.timers.paperOnTime
  | AUTO_STARCH_FEEDER => some s.timers.starchOnTime
  | AUTO_WATER_PUMP => some s.timers.waterPumpTime
  | AUTO_MIXING => some s.timers.mixingTime
  | AUTO_MOULDING_PROMPT => none
  | AUTO_DOOR_OPEN => some s.timers.doorOpenTime
  | AUTO_DOOR_CLOSE => some DOOR_CLOSE_TIME
  | AUTO_COMPLETE => none

/-- The sample run with mixer prep started at clock value 4294967000, 296 ms before
`millis()` wraps. -/
def lateStart : Controller := { run0 with stateStartTime := 4294967000 }

/-- States reachable from the constructor: `begin()`, clock changes, Up, Down and
Enter presses, `handleAutoSequence` ticks, button polls and `update()` calls. -/
inductive MenuReachable : Controller → Prop where
  | init (mem : Controller) : MenuReachable (MouldBotController mem)
  | begin (s : Controller) : MenuReachable s → MenuReachable (begin s)
  | clock (s : Controller) (t : Nat) : MenuReachable s → MenuReachable (setClock s t)
  | up (s : Controller) : MenuReachable s → MenuReachable (onUpPressed s)
  | down (s : Controller) : MenuReachable s → MenuReachable (onDownPressed s)
  | enter (s : Controller) : MenuReachable s → MenuReachable (onEnterPressed s)
  | tick (s : Controller) : MenuReachable s → MenuReachable (handleAutoSequence s)
  | buttons (s : Controller) (b : Buttons) : MenuReachable s → MenuReachable (handleButtons s b)
  | update (s : Controller) (b : Buttons) : MenuReachable s → MenuReachable (update s b)

/-- Number of entries of the menu shown in a state; `none` where no menu is shown. -/
def menuCount : MenuState → Option Int
  | MAIN_MENU => some MAIN_MENU_COUNT
  | SETTINGS_MENU => some SETTINGS_COUNT
  | TEST_MACHINE => some TEST_COUNT
  | RUN_AUTO => none
  | EDIT_TIMER => none

/-- The menu index is within the menu shown, within the timers while one is edited,
and `relayStates` has its five entries. -/
def menuInv (s : Controller) : Prop :=
  (∀ n, menuCount s.currentState = some n → 0 ≤ s.currentMenuIndex ∧ s.currentMenuIndex < n) ∧
  (s.currentState = EDIT_TIMER → 0 ≤ s.currentMenuIndex ∧ s.currentMenuIndex < BACK_TO_MAIN) ∧
  s.relayStates.length = 5

/-- The main menu of a fresh board after one Up press: the index wraps to 2. -/
def menuAtTest : Controller := onUpPressed freshBoard

/-- The test menu entered from there and moved up twice: the index wraps to 5, then
4. -/
def testAtDoor : Controller := onUpPressed (onUpPressed (onEnterPressed menuAtTest))

/-! ## Projections of the primitives -/

theorem allRelaysOff_level (s : Controller) (pin : Nat) :
    (allRelaysOff s).relayExpander.level pin
      = if pin ≤ 5 then HIGH else s.relayExpander.level pin := by
  simp only [allRelaysOff, delay, relayWrite, PCF8575.digitalWrite, RELAY_STARCH_FEEDER,
    RELAY_PAPER_SHREDDER, RELAY_WATER_PUMP, RELAY_MIXER, RELAY_MIXER_DOOR, RELAY_SPARE,
    P0, P1, P2, P3, P4, P5]
  split_ifs <;> first | rfl | omega

theorem allRelaysOff_writes (s : Controller) :
    (allRelaysOff s).relayExpander.writes
      = s.relayExpander.writes ++
        [(RELAY_STARCH_FEEDER, HIGH), (RELAY_PAPER_SHREDDER, HIGH), (RELAY_WATER_PUMP, HIGH),
         (RELAY_MIXER, HIGH), (RELAY_MIXER_DOOR, HIGH), (RELAY_SPARE, HIGH)] := by
  simp [allRelaysOff, delay, relayWrite, PCF8575.digitalWrite]

theorem emergencyStop_relayExpander (s : Controller) :
    (emergencyStop s).relayExpander = (allRelaysOff s).relayExpander := by
  simp [emergencyStop, displayMainMenu, lcdDo, delay, allRelaysOff, relayWrite]

theorem handleButtons_abort (s : Controller) (hs : s.currentState = RUN_AUTO)
    (hr : s.autoRunning = true) : handleButtons s allPressed = emergencyStop s := by
  simp [handleButtons, allPressed, hs, hr]

theorem emergencyStop_fields (s : Controller) :
    (emergencyStop s).autoRunning = false ∧ (emergencyStop s).currentState = MAIN_MENU ∧
    (emergencyStop s).currentMenuIndex = 0 ∧ (emergencyStop s).autoState = s.autoState ∧
    (emergencyStop s).stateStartTime = s.stateStartTime ∧
    (emergencyStop s).timers = s.timers ∧ (emergencyStop s).eeprom = s.eeprom := by
  simp [emergencyStop, displayMainMenu, lcdDo, delay, allRelaysOff, relayWrite]

theorem emergencyStop_allFiveOff (s : Controller) : allFiveOff (emergencyStop s) := by
  simp [allFiveOff, relayOn, emergencyStop_relayExpander, allRelaysOff_level, RELAY_STARCH_FEEDER,
    RELAY_PAPER_SHREDDER, RELAY_WATER_PUMP, RELAY_MIXER, RELAY_MIXER_DOOR,
    P0, P1, P3, P4, P5, HIGH, LOW]

/-! ## C1: abort -/

/-- C1 (as stated, refuted): an abort during mixer prep leaves `autoState` at
`AUTO_MIXER_PREP`; the emergency stop never assigns `AUTO_IDLE`. -/
theorem abort_keeps_autoState_counterexample :
    overduePrep.currentState = RUN_AUTO ∧ overduePrep.autoRunning = true ∧
    overduePrep.autoState ≠ AUTO_IDLE ∧
    (handleButtons overduePrep allPressed).autoState ≠ AUTO_IDLE := by
  refine ⟨rfl, rfl, by decide, ?_⟩
  rw [handleButtons_abort overduePrep rfl rfl, (emergencyStop_fields overduePrep).2.2.2.1]
  decide

/-- C1 (amended): when `handleButtons` reads all three buttons pressed in a state
with `currentState = RUN_AUTO` and `autoRunning = true`, whatever the phase, the
phase start time and the clock, the result has `autoRunning = false`,
`currentState = MAIN_MENU`, the feeder, shredder, pump, mixer and door relays off,
and `autoState` unchanged. -/
theorem abort_stops_run (s : Controller) (hs : s.currentState = RUN_AUTO)
    (hr : s.autoRunning = true) :
    (handleButtons s allPressed).autoRunning = false ∧
    (handleButtons s allPressed).currentState = MAIN_MENU ∧
    allFiveOff (handleButtons s allPressed) ∧
    (handleButtons s allPressed).autoState = s.autoState := by
  rw [handleButtons_abort s hs hr]
  exact ⟨(emergencyStop_fields s).1, (emergencyStop_fields s).2.1, emergencyStop_allFiveOff s,
    (emergencyStop_fields s).2.2.2.1⟩

theorem abort_stops_run_witness :
    (handleButtons overduePrep allPressed).autoRunning = false ∧
    (handleButtons overduePrep allPressed).currentState = MAIN_MENU ∧
    allFiveOff (handleButtons overduePrep allPressed) ∧
    (handleButtons overduePrep allPressed).autoState = AUTO_MIXER_PREP :=
  abort_stops_run overduePrep rfl rfl

/-! ## C2: timed transitions -/

theorem handleAutoSequence_core (s : Controller) :
    (handleAutoSequence s).autoState = (autoSwitch s s.clock).autoState ∧
    (handleAutoSequence s).stateStartTime = (autoSwitch s s.clock).stateStartTime ∧
    (handleAutoSequence s).relayExpander = (autoSwitch s s.clock).relayExpander ∧
    (handleAutoSequence s).autoRunning = (autoSwitch s s.clock).autoRunning ∧
    (handleAutoSequence s).currentState = (autoSwitch s s.clock).currentState ∧
    (handleAutoSequence s).timers = (autoSwitch s s.clock).timers ∧
    (handleAutoSequence s).eeprom = (autoSwitch s s.clock).eeprom := by
  unfold handleAutoSequence
  simp only [millis]
  split_ifs <;> simp [displayAutoStatus, lcdDo]

/-- C2: once the elapsed time `clock - stateStartTime` has reached the duration of
a timed phase, `handleAutoSequence` moves to the successor phase and changes exactly
the listed relay pins (`LOW` is on, `HIGH` is off): mixer prep (2000 ms) to shredder
with the shredder on; shredder (`paperOnTime`) to feeder with shredder off and feeder
on; feeder (`starchOnTime`) to pump with feeder off and pump on; pump
(`waterPumpTime`) to mixing with the pump off; mixing (`mixingTime`) to the moulding
prompt with no relay write; door open (`doorOpenTime`) to door close with the door
off; door close (2000 ms) to the moulding prompt with no relay write. -/
theorem timed_phase_transitions (s : Controller) :
    (s.autoState = AUTO_MIXER_PREP → MIXER_PREP_TIME ≤ usub s.clock s.stateStartTime →
      (handleAutoSequence s).autoState = AUTO_PAPER_SHREDDER ∧
      ∀ pin, (handleAutoSequence s).relayExpander.level pin
        = if pin = RELAY_PAPER_SHREDDER then LOW else s.relayExpander.level pin) ∧
    (s.autoState = AUTO_PAPER_SHREDDER → s.timers.paperOnTime ≤ usub s.clock s.stateStartTime →
      (handleAutoSequence s).autoState = AUTO_STARCH_FEEDER ∧
      ∀ pin, (handleAutoSequence s).relayExpander.level pin
        = if pin = RELAY_STARCH_FEEDER then LOW
          else if pin = RELAY_PAPER_SHREDDER then HIGH else s.relayExpander.level pin) ∧
    (s.autoState = AUTO_STARCH_FEEDER → s.timers.starchOnTime ≤ usub s.clock s.stateStartTime →
      (handleAutoSequence s).autoState = AUTO_WATER_PUMP ∧
      ∀ pin, (handleAutoSequence s).relayExpander.level pin
        = if pin = RELAY_WATER_PUMP then LOW
          else if pin = RELAY_STARCH_FEEDER then HIGH else s.relayExpander.level pin) ∧
    (s.autoState = AUTO_WATER_PUMP → s.timers.waterPumpTime ≤ usub s.clock s.stateStartTime →
      (handleAutoSequence s).autoState = AUTO_MIXING ∧
      ∀ pin, (handleAutoSequence s).relayExpander.level pin
        = if pin = RELAY_WATER_PUMP then HIGH else s.relayExpander.level pin) ∧
    (s.autoState = AUTO_MIXING → s.timers.mixingTime ≤ usub s.clock s.stateStartTime →
      (handleAutoSequence s).autoState = AUTO_MOULDING_PROMPT ∧
      (handleAutoSequence s).relayExpander = s.relayExpander) ∧
    (s.autoState = AUTO_DOOR_OPEN → s.timers.doorOpenTime ≤ usub s.clock s.stateStartTime →
      (handleAutoSequence s).autoState = AUTO_DOOR_CLOSE ∧
      ∀ pin, (handleAutoSequence s).relayExpander.level pin
        = if pin = RELAY_MIXER_DOOR then HIGH else s.relayExpander.level pin) ∧
    (s.autoState = AUTO_DOOR_CLOSE → DOOR_CLOSE_TIME ≤ usub s.clock s.stateStartTime →
      (handleAutoSequence s).autoState = AUTO_MOULDING_PROMPT ∧
      (handleAutoSequence s).relayExpander = s.relayExpander) := by
  rw [(handleAutoSequence_core s).1, (handleAutoSequence_core s).2.2.1]
  refine ⟨?_, ?_, ?_, ?_, ?_, ?_, ?_⟩ <;> intro h hd <;>
    simp [autoSwitch, h, hd, displayAutoStatus, lcdDo, setRelay, delay, relayWrite,
      PCF8575.digitalWrite]

/-- C2 (witness): with the durations shredder 2000, feeder 3000, pump 1000, mixer 500
and door 1000 the run goes through mixer prep, shredder, feeder, pump, mixing and the
moulding prompt, and after Enter through door open and door close back to the
prompt, with the mixer on throughout. -/
theorem timed_phase_transitions_witness :
    (run0.autoState = AUTO_MIXER_PREP ∧ relaysLit run0 = [RELAY_MIXER]) ∧
    (run1.autoState = AUTO_PAPER_SHREDDER ∧ relaysLit run1 = [RELAY_PAPER_SHREDDER, RELAY_MIXER]) ∧
    (run2.autoState = AUTO_STARCH_FEEDER ∧ relaysLit run2 = [RELAY_STARCH_FEEDER, RELAY_MIXER]) ∧
    (run3.autoState = AUTO_WATER_PUMP ∧ relaysLit run3 = [RELAY_WATER_PUMP, RELAY_MIXER]) ∧
    (run4.autoState = AUTO_MIXING ∧ relaysLit run4 = [RELAY_MIXER]) ∧
    (run5.autoState = AUTO_MOULDING_PROMPT ∧ relaysLit run5 = [RELAY_MIXER]) ∧
    (run6.autoState = AUTO_DOOR_OPEN ∧ relaysLit run6 = [RELAY_MIXER, RELAY_MIXER_DOOR]) ∧
    (run7.autoState = AUTO_DOOR_CLOSE ∧ relaysLit run7 = [RELAY_MIXER]) ∧
    (run8.autoState = AUTO_MOULDING_PROMPT ∧ relaysLit run8 = [RELAY_MIXER]) :=
  ⟨⟨rfl, by decide⟩,
   ⟨((timed_phase_transitions (setClock run0 4300)).1 rfl (by decide)).1, by decide⟩,
   ⟨((timed_phase_transitions (setClock run1 6300)).2.1 rfl (by decide)).1, by decide⟩,
   ⟨((timed_phase_transitions (setClock run2 9300)).2.2.1 rfl (by decide)).1, by decide⟩,
   ⟨((timed_phase_transitions (setClock run3 10300)).2.2.2.1 rfl (by decide)).1, by decide⟩,
   ⟨((timed_phase_transitions (setClock run4 10800)).2.2.2.2.1 rfl (by decide)).1, by decide⟩,
   ⟨rfl, by decide⟩,
   ⟨((timed_phase_transitions (setClock run6 21000)).2.2.2.2.2.1 rfl (by decide)).1, by decide⟩,
   ⟨((timed_phase_transitions (setClock run7 23000)).2.2.2.2.2.2 rfl (by decide)).1, by decide⟩⟩

/-! ## C3: abort has priority within a tick -/

/-- C3: in a state with `currentState = RUN_AUTO` and `autoRunning = true`, whatever
the phase and however long its deadline has passed, one `update()` that reads all
three buttons pressed is exactly the emergency stop (`handleAutoSequence` does not
run): `autoState` and `stateStartTime` keep their values, the only relay writes of
the tick are the six `HIGH` (off) writes of `allRelaysOff`, and the tick ends with
`autoRunning = false` and every relay pin `HIGH`. -/
theorem abort_wins_over_transition (s : Controller) (hs : s.currentState = RUN_AUTO)
    (hr : s.autoRunning = true) :
    update s allPressed = emergencyStop s ∧
    (update s allPressed).autoState = s.autoState ∧
    (update s allPressed).stateStartTime = s.stateStartTime ∧
    (update s allPressed).relayExpander.writes
      = s.relayExpander.writes ++
        [(RELAY_STARCH_FEEDER, HIGH), (RELAY_PAPER_SHREDDER, HIGH), (RELAY_WATER_PUMP, HIGH),
         (RELAY_MIXER, HIGH), (RELAY_MIXER_DOOR, HIGH), (RELAY_SPARE, HIGH)] ∧
    (update s allPressed).autoRunning = false ∧
    (∀ pin, pin ≤ 5 → (update s allPressed).relayExpander.level pin = HIGH) := by
  have hu : update s allPressed = emergencyStop s := by
    simp [update, handleButtons_abort s hs hr, (emergencyStop_fields s).2.1]
  rw [hu, emergencyStop_relayExpander, allRelaysOff_writes]
  refine ⟨rfl, (emergencyStop_fields s).2.2.2.1, (emergencyStop_fields s).2.2.2.2.1, rfl,
    (emergencyStop_fields s).1, ?_⟩
  intro pin hp
  simp [allRelaysOff_level, hp]

/-- C3 (witness): 2200 ms into mixer prep a plain tick would move on to the shredder
phase; the same tick with all three buttons pressed stops the run instead. -/
theorem abort_wins_over_transition_witness :
    MIXER_PREP_TIME ≤ usub overduePrep.clock overduePrep.stateStartTime ∧
    (handleAutoSequence overduePrep).autoState = AUTO_PAPER_SHREDDER ∧
    (update overduePrep allPressed).autoState = AUTO_MIXER_PREP ∧
    (update overduePrep allPressed).autoRunning = false ∧
    (∀ pin, pin ≤ 5 → (update overduePrep allPressed).relayExpander.level pin = HIGH) :=
  ⟨by decide, by decide, (abort_wins_over_transition overduePrep rfl rfl).2.1,
    (abort_wins_over_transition overduePrep rfl rfl).2.2.2.2.1,
    (abort_wins_over_transition overduePrep rfl rfl).2.2.2.2.2⟩

/-! ## C4, C5, C6: the EEPROM record -/

theorem saveTimersToEEPROM_magic (s : Controller) :
    (saveTimersToEEPROM s).eeprom.read EEPROM_MAGIC_ADDRESS = EEPROM_MAGIC_NUMBER := by
  simp [saveTimersToEEPROM, EEPROM.put, EEPROM.write, EEPROM.read, EEPROM_MAGIC_ADDRESS,
    EEPROM_MAGIC_NUMBER, EEPROM_DATA_ADDRESS, SIZEOF_ULONG]
  rfl

theorem saveTimersToEEPROM_stored (s : Controller) (h : s.timers.fits32) :
    storedTimers (saveTimersToEEPROM s).eeprom = s.timers := by
  obtain ⟨h1, h2, h3, h4, h5⟩ := h
  simp only [ULONG_MOD] at h1 h2 h3 h4 h5
  cases hs : s.timers with
  | mk a b c d e =>
    simp only [hs] at h1 h2 h3 h4 h5
    simp [storedTimers, saveTimersToEEPROM, hs, EEPROM.get, EEPROM.put, EEPROM.write,
      EEPROM.read, EEPROM_MAGIC_ADDRESS, EEPROM_MAGIC_NUMBER, EEPROM_DATA_ADDRESS, SIZEOF_ULONG]
    refine ⟨?_, ?_, ?_, ?_, ?_⟩ <;> omega

theorem loadTimersFromEEPROM_marked (s : Controller)
    (h : s.eeprom.read EEPROM_MAGIC_ADDRESS = EEPROM_MAGIC_NUMBER) :
    loadTimersFromEEPROM s = { s with timers := storedTimers s.eeprom } := by
  simp [loadTimersFromEEPROM, h, storedTimers, EEPROM_DATA_ADDRESS, SIZEOF_ULONG]

theorem loadTimersFromEEPROM_unmarked (s : Controller)
    (h : s.eeprom.read EEPROM_MAGIC_ADDRESS ≠ EEPROM_MAGIC_NUMBER) :
    loadTimersFromEEPROM s = saveTimersToEEPROM (setDefaultTimers s) := by
  simp [loadTimersFromEEPROM, h]

/-- C4: for every controller state `s` whose five timers fit 32 bits, and whatever
the EEPROM held before, the record `saveTimersToEEPROM` writes is what
`loadTimersFromEEPROM` reads back: in every state `s2` whose EEPROM is the one left by
the save, whatever `s2` holds in memory (its timers included), the load sets `timers`
to the saved value; in particular a load right after the save yields the saved
value. -/
theorem save_then_load_roundtrip (s : Controller) (h : s.timers.fits32) :
    (∀ s2 : Controller, s2.eeprom = (saveTimersToEEPROM s).eeprom →
      (loadTimersFromEEPROM s2).timers = s.timers) ∧
    (∀ t : Timers,
      (loadTimersFromEEPROM { saveTimersToEEPROM s with timers := t }).timers = s.timers) ∧
    (loadTimersFromEEPROM (saveTimersToEEPROM s)).timers = s.timers := by
  have key : ∀ s2 : Controller, s2.eeprom = (saveTimersToEEPROM s).eeprom →
      (loadTimersFromEEPROM s2).timers = s.timers := by
    intro s2 he
    have hm : s2.eeprom.read EEPROM_MAGIC_ADDRESS = EEPROM_MAGIC_NUMBER := by
      rw [he]; exact saveTimersToEEPROM_magic s
    rw [loadTimersFromEEPROM_marked s2 hm]
    show storedTimers s2.eeprom = s.timers
    rw [he]
    exact saveTimersToEEPROM_stored s h
  exact ⟨key, fun t => key _ rfl, key _ rfl⟩

/-- C4 (witness): the sample durations are saved over an erased EEPROM; a board that
comes up with that EEPROM and all timers zero in memory loads the sample durations,
and so does a load right after the save and a load after the timers in memory were
overwritten with the defaults. -/
theorem save_then_load_roundtrip_witness :
    sampleBoard.timers.fits32 ∧
    rebootedBoard.timers
      = { starchOnTime := 0, paperOnTime := 0, waterPumpTime := 0, mixingTime := 0,
          doorOpenTime := 0 } ∧
    (loadTimersFromEEPROM rebootedBoard).timers
      = { starchOnTime := 3000, paperOnTime := 2000, waterPumpTime := 1000, mixingTime := 500,
          doorOpenTime := 1000 } ∧
    (loadTimersFromEEPROM { saveTimersToEEPROM sampleBoard with timers := defaultTimers }).timers
      = { starchOnTime := 3000, paperOnTime := 2000, waterPumpTime := 1000, mixingTime := 500,
          doorOpenTime := 1000 } ∧
    (loadTimersFromEEPROM (saveTimersToEEPROM sampleBoard)).timers
      = { starchOnTime := 3000, paperOnTime := 2000, waterPumpTime := 1000, mixingTime := 500,
          doorOpenTime := 1000 } :=
  ⟨by decide, rfl,
   (save_then_load_roundtrip sampleBoard (by decide)).1 rebootedBoard rfl,
   (save_then_load_roundtrip sampleBoard (by decide)).2.1 defaultTimers,
   (save_then_load_roundtrip sampleBoard (by decide)).2.2⟩

/-- C5: when the byte at address 0 is not 0xAB, whatever the other bytes hold,
`loadTimersFromEEPROM` sets the timers to the defaults (starch/feeder 5000,
paper/shredder 10000, water pump 8000, mixing 30000, door 5000) and leaves byte 0
equal to 0xAB, and a second load yields the same defaults. -/
theorem first_load_sets_defaults (s : Controller)
    (h : s.eeprom.read 0 ≠ 0xAB) :
    (loadTimersFromEEPROM s).timers = defaultTimers ∧
    (loadTimersFromEEPROM s).eeprom.read 0 = 0xAB ∧
    (loadTimersFromEEPROM (loadTimersFromEEPROM s)).timers = defaultTimers := by
  have hl := loadTimersFromEEPROM_unmarked s h
  have hm := saveTimersToEEPROM_magic (setDefaultTimers s)
  have hd : (setDefaultTimers s).timers = defaultTimers := rfl
  have hf : (setDefaultTimers s).timers.fits32 := by rw [hd]; decide
  refine ⟨?_, ?_, ?_⟩
  · rw [hl]; exact hd
  · rw [hl]; exact hm
  · rw [hl, loadTimersFromEEPROM_marked _ hm]
    exact (saveTimersToEEPROM_stored _ hf).trans hd

/-- C5 (witness): the first load on a board with an erased EEPROM. -/
theorem first_load_sets_defaults_witness :
    powerOnMemory.eeprom.read 0 = 255 ∧
    (loadTimersFromEEPROM powerOnMemory).timers
      = { starchOnTime := 5000, paperOnTime := 10000, waterPumpTime := 8000,
          mixingTime := 30000, doorOpenTime := 5000 } ∧
    (loadTimersFromEEPROM powerOnMemory).eeprom.read 0 = 0xAB ∧
    (loadTimersFromEEPROM (loadTimersFromEEPROM powerOnMemory)).timers = defaultTimers :=
  ⟨rfl, first_load_sets_defaults powerOnMemory (by decide)⟩

/-- C6 (as stated, refuted): with the marker present, zero bytes load as durations
of 0 ms and 0xFF bytes load as durations of 4294967295 ms; neither is clamped. -/
theorem load_not_clamped_counterexample :
    zeroedBoard.eeprom.read 0 = 0xAB ∧ erasedDataBoard.eeprom.read 0 = 0xAB ∧
    (loadTimersFromEEPROM zeroedBoard).timers.paperOnTime = 0 ∧
    (loadTimersFromEEPROM erasedDataBoard).timers.paperOnTime = 4294967295 ∧
    ¬ (loadTimersFromEEPROM zeroedBoard).timers.inRange ∧
    ¬ (loadTimersFromEEPROM erasedDataBoard).timers.inRange := by
  decide

/-- C6 (amended): after `loadTimersFromEEPROM`, if the byte at address 0 was not
0xAB every timer lies in [1000, 300000] (the defaults); if it was 0xAB the timers are
exactly the five stored 32-bit values, so they lie in [1000, 300000] precisely when
the stored values do. -/
theorem load_range (s : Controller) :
    (s.eeprom.read 0 ≠ 0xAB → (loadTimersFromEEPROM s).timers.inRange) ∧
    (s.eeprom.read 0 = 0xAB →
      (loadTimersFromEEPROM s).timers = storedTimers s.eeprom ∧
      ((loadTimersFromEEPROM s).timers.inRange ↔ (storedTimers s.eeprom).inRange)) := by
  constructor
  · intro h
    have hl := loadTimersFromEEPROM_unmarked s h
    have hm := saveTimersToEEPROM_magic (setDefaultTimers s)
    have ht : (loadTimersFromEEPROM s).timers = defaultTimers := by rw [hl]; rfl
    rw [ht]; decide
  · intro h
    have ht : (loadTimersFromEEPROM s).timers = storedTimers s.eeprom := by
      rw [loadTimersFromEEPROM_marked s h]
    exact ⟨ht, by rw [ht]⟩

/-- C6 (witness): an erased EEPROM loads the in-range defaults, and a record saved
from the sample durations loads back as stored. -/
theorem load_range_witness :
    (loadTimersFromEEPROM powerOnMemory).timers.inRange ∧
    (loadTimersFromEEPROM (saveTimersToEEPROM sampleBoard)).timers
      = storedTimers (saveTimersToEEPROM sampleBoard).eeprom :=
  ⟨(load_range powerOnMemory).1 (by decide),
   ((load_range (saveTimersToEEPROM sampleBoard)).2 (by decide)).1⟩

/-! ## C7: remaining time -/

theorem usub_of_le (a b : Nat) (hb : b ≤ a) (ha : a < ULONG_MOD) : usub a b = a - b := by
  unfold usub ULONG_MOD at *
  omega

/-- Before the deadline the displayed remaining time is the whole seconds of
`duration - elapsed`; the prompt and the complete state display none. -/
theorem autoRemaining_before_deadline (s : Controller) (h : s.timers.fits32) :
    (s.autoState = AUTO_MIXER_PREP → usub s.clock s.stateStartTime ≤ MIXER_PREP_TIME →
      autoRemaining s = some ((MIXER_PREP_TIME - usub s.clock s.stateStartTime) / 1000)) ∧
    (s.autoState = AUTO_PAPER_SHREDDER → usub s.clock s.stateStartTime ≤ s.timers.paperOnTime →
      autoRemaining s = some ((s.timers.paperOnTime - usub s.clock s.stateStartTime) / 1000)) ∧
    (s.autoState = AUTO_STARCH_FEEDER → usub s.clock s.stateStartTime ≤ s.timers.starchOnTime →
      autoRemaining s = some ((s.timers.starchOnTime - usub s.clock s.stateStartTime) / 1000)) ∧
    (s.autoState = AUTO_WATER_PUMP → usub s.clock s.stateStartTime ≤ s.timers.waterPumpTime →
      autoRemaining s = some ((s.timers.waterPumpTime - usub s.clock s.stateStartTime) / 1000)) ∧
    (s.autoState = AUTO_MIXING → usub s.clock s.stateStartTime ≤ s.timers.mixingTime →
      autoRemaining s = some ((s.timers.mixingTime - usub s.clock s.stateStartTime) / 1000)) ∧
    (s.autoState = AUTO_DOOR_OPEN → usub s.clock s.stateStartTime ≤ s.timers.doorOpenTime →
      autoRemaining s = some ((s.timers.doorOpenTime - usub s.clock s.stateStartTime) / 1000)) ∧
    (s.autoState = AUTO_DOOR_CLOSE → usub s.clock s.stateStartTime ≤ DOOR_CLOSE_TIME →
      autoRemaining s = some ((DOOR_CLOSE_TIME - usub s.clock s.stateStartTime) / 1000)) ∧
    (s.autoState = AUTO_MOULDING_PROMPT → autoRemaining s = none) ∧
    (s.autoState = AUTO_COMPLETE → autoRemaining s = none) := by
  obtain ⟨h1, h2, h3, h4, h5⟩ := h
  refine ⟨?_, ?_, ?_, ?_, ?_, ?_, ?_, ?_, ?_⟩
  · intro ha hd
    simp [autoRemaining, ha, millis, usub_of_le _ _ hd (by decide)]
  · intro ha hd
    simp [autoRemaining, ha, millis, usub_of_le _ _ hd h2]
  · intro ha hd
    simp [autoRemaining, ha, millis, usub_of_le _ _ hd h1]
  · intro ha hd
    simp [autoRemaining, ha, millis, usub_of_le _ _ hd h3]
  · intro ha hd
    simp [autoRemaining, ha, millis, usub_of_le _ _ hd h4]
  · intro ha hd
    simp [autoRemaining, ha, millis, usub_of_le _ _ hd h5]
  · intro ha hd
    simp [autoRemaining, ha, millis, usub_of_le _ _ hd (by decide)]
  · intro ha
    simp [autoRemaining, ha]
  · intro ha
    simp [autoRemaining, ha]

/-- C7 (the code at the failing inputs): displayed 2001 ms into the 2000 ms mixer
prep, the remaining time is 4294967 s, not 0; and on a board whose EEPROM holds the
marker followed by zero bytes, the move to the shredder phase prints a remaining time
of 4294967 s on the LCD. -/
theorem remaining_time_wraps_after_deadline :
    overdueDisplay.autoState = AUTO_MIXER_PREP ∧
    usub overdueDisplay.clock overdueDisplay.stateStartTime = 2001 ∧
    autoRemaining overdueDisplay = some 4294967 ∧
    LcdOp.printNum 4294967 ∈ (displayAutoStatus overdueDisplay).lcd ∧
    zeroedRun.autoState = AUTO_PAPER_SHREDDER ∧
    zeroedRun.timers.paperOnTime = 0 ∧
    autoRemaining zeroedRun = some 4294967 ∧
    zeroedRun.lcd.getLast? = some (LcdOp.print "s  ") ∧
    zeroedRun.lcd.dropLast.getLast? = some (LcdOp.printNum 4294967) := by
  decide

/-! ## C8: the phase start time -/

theorem autoSwitch_stateStartTime (s : Controller) (t : Nat)
    (h : (autoSwitch s t).autoState ≠ s.autoState) :
    (autoSwitch s t).stateStartTime
      = if (autoSwitch s t).autoState = AUTO_MOULDING_PROMPT then s.stateStartTime else t := by
  revert h
  unfold autoSwitch
  cases ha : s.autoState <;> simp only [] <;> split_ifs <;>
    simp_all [displayAutoStatus, lcdDo, setRelay, delay, relayWrite]

theorem startAutoRun_level (s : Controller) (pin : Nat) :
    (startAutoRun s).relayExpander.level pin
      = if pin = RELAY_MIXER then LOW else if pin ≤ 5 then HIGH
        else s.relayExpander.level pin := by
  have h : (startAutoRun s).relayExpander
      = (allRelaysOff s).relayExpander.digitalWrite RELAY_MIXER LOW := by
    simp [startAutoRun, displayAutoStatus, lcdDo, setRelay, delay, relayWrite, allRelaysOff]
  rw [h]
  simp only [PCF8575.digitalWrite, allRelaysOff_level]

theorem startAutoRun_fields (s : Controller) :
    (startAutoRun s).currentState = RUN_AUTO ∧ (startAutoRun s).autoRunning = true ∧
    (startAutoRun s).autoState = AUTO_MIXER_PREP ∧ (startAutoRun s).stateStartTime = s.clock ∧
    (startAutoRun s).timers = s.timers ∧ (startAutoRun s).eeprom = s.eeprom := by
  simp [startAutoRun, displayAutoStatus, lcdDo, setRelay, delay, allRelaysOff, relayWrite,
    millis]

theorem enterTimerEdit_frame (s : Controller) (i : Int) :
    (enterTimerEdit s i).autoState = s.autoState ∧
    (enterTimerEdit s i).stateStartTime = s.stateStartTime ∧
    (enterTimerEdit s i).autoRunning = s.autoRunning ∧
    (enterTimerEdit s i).relayExpander = s.relayExpander ∧
    (enterTimerEdit s i).timers = s.timers ∧
    (enterTimerEdit s i).eeprom = s.eeprom ∧
    (enterTimerEdit s i).currentState = EDIT_TIMER := by
  unfold enterTimerEdit
  simp only []
  split_ifs <;> simp [displayTimerEdit, lcdDo]

theorem toggleTestRelay_frame (s : Controller) (i : Int) :
    (toggleTestRelay s i).autoState = s.autoState ∧
    (toggleTestRelay s i).stateStartTime = s.stateStartTime ∧
    (toggleTestRelay s i).autoRunning = s.autoRunning ∧
    (toggleTestRelay s i).timers = s.timers ∧
    (toggleTestRelay s i).eeprom = s.eeprom ∧
    (toggleTestRelay s i).currentState = s.currentState := by
  unfold toggleTestRelay
  simp only []
  split_ifs <;> simp [displayTestMenu, lcdDo, setRelay, delay, relayWrite]

theorem saveTimerEdit_frame (s : Controller) :
    (saveTimerEdit s).autoState = s.autoState ∧
    (saveTimerEdit s).stateStartTime = s.stateStartTime ∧
    (saveTimerEdit s).autoRunning = s.autoRunning ∧
    (saveTimerEdit s).relayExpander = s.relayExpander ∧
    (saveTimerEdit s).eeprom = s.eeprom ∧
    (saveTimerEdit s).currentState = s.currentState := by
  unfold saveTimerEdit
  simp only []
  split_ifs <;> simp

theorem onEnterPressed_stateStartTime (s : Controller)
    (h : (onEnterPressed s).autoState ≠ s.autoState) :
    (onEnterPressed s).stateStartTime = s.clock := by
  revert h
  unfold onEnterPressed
  simp only []
  split_ifs <;>
    simp [displayMainMenu, displaySettingsMenu, displayTestMenu, displayAutoStatus,
      lcdDo, setRelay, delay, relayWrite, allRelaysOff, millis,
      (startAutoRun_fields s).2.2.1, (startAutoRun_fields s).2.2.2.1,
      (enterTimerEdit_frame s s.currentMenuIndex).1,
      (toggleTestRelay_frame s s.currentMenuIndex).1, (saveTimerEdit_frame s).1,
      saveTimersToEEPROM]

/-- C8 (as stated, refuted): the tick that ends the mixing phase at clock value 10800
changes `autoState` to `AUTO_MOULDING_PROMPT` and leaves `stateStartTime` at 10300. -/
theorem prompt_entry_keeps_start_time_counterexample :
    (setClock run4 10800).autoState = AUTO_MIXING ∧
    (setClock run4 10800).clock = 10800 ∧
    (handleAutoSequence (setClock run4 10800)).autoState = AUTO_MOULDING_PROMPT ∧
    (handleAutoSequence (setClock run4 10800)).stateStartTime = 10300 ∧
    (handleAutoSequence (setClock run4 10800)).stateStartTime ≠ (setClock run4 10800).clock := by
  decide

/-- C8 (amended): a `handleAutoSequence` tick that changes `autoState` sets
`stateStartTime` to the clock value sampled on entry, except that the ticks entering
`AUTO_MOULDING_PROMPT` leave `stateStartTime` unchanged; an Enter press that changes
`autoState` sets `stateStartTime` to the clock value it samples; `startAutoRun` sets
`stateStartTime` to the clock value it samples. -/
theorem start_time_reset_on_transition (s : Controller) :
    ((handleAutoSequence s).autoState ≠ s.autoState →
      (handleAutoSequence s).stateStartTime
        = if (handleAutoSequence s).autoState = AUTO_MOULDING_PROMPT then s.stateStartTime
          else s.clock) ∧
    ((onEnterPressed s).autoState ≠ s.autoState → (onEnterPressed s).stateStartTime = s.clock) ∧
    (startAutoRun s).stateStartTime = s.clock := by
  refine ⟨?_, onEnterPressed_stateStartTime s, (startAutoRun_fields s).2.2.2.1⟩
  rw [(handleAutoSequence_core s).1, (handleAutoSequence_core s).2.1]
  exact autoSwitch_stateStartTime s s.clock

/-- C8 (witness): in the sample run the tick at 4300 enters the shredder phase with
start time 4300, the tick at 10800 enters the prompt with the start time still 10300,
and the Enter press at 20000 enters door open with start time 20000. -/
theorem start_time_reset_on_transition_witness :
    run1.stateStartTime = 4300 ∧ run5.stateStartTime = 10300 ∧ run6.stateStartTime = 20000 :=
  ⟨((start_time_reset_on_transition (setClock run0 4300)).1 (by decide)).trans (by decide),
   ((start_time_reset_on_transition (setClock run4 10800)).1 (by decide)).trans (by decide),
   ((start_time_reset_on_transition (setClock run5 20000)).2.1 (by decide)).trans (by decide)⟩

/-! ## C9: the moulding prompt -/

theorem onUpPressed_frame (s : Controller) :
    (onUpPressed s).autoState = s.autoState ∧
    (onUpPressed s).stateStartTime = s.stateStartTime ∧
    (onUpPressed s).relayExpander = s.relayExpander ∧
    (onUpPressed s).autoRunning = s.autoRunning ∧
    (onUpPressed s).currentState = s.currentState ∧
    (onUpPressed s).timers = s.timers ∧
    (onUpPressed s).eeprom = s.eeprom := by
  unfold onUpPressed
  simp only []
  split_ifs <;>
    simp [displayMainMenu, displaySettingsMenu, displayTestMenu, displayTimerEdit, lcdDo]

theorem onDownPressed_frame (s : Controller) :
    (onDownPressed s).autoState = s.autoState ∧
    (onDownPressed s).stateStartTime = s.stateStartTime ∧
    (onDownPressed s).relayExpander = s.relayExpander ∧
    (onDownPressed s).autoRunning = s.autoRunning ∧
    (onDownPressed s).currentState = s.currentState ∧
    (onDownPressed s).timers = s.timers ∧
    (onDownPressed s).eeprom = s.eeprom := by
  unfold onDownPressed
  simp only []
  split_ifs <;>
    simp [displayMainMenu, displaySettingsMenu, displayTestMenu, displayTimerEdit, lcdDo]

theorem onEnterPressed_prompt (s : Controller) (hs : s.currentState = RUN_AUTO)
    (h : s.autoState = AUTO_MOULDING_PROMPT) :
    onEnterPressed s
      = displayAutoStatus (setRelay
          { s with autoState := AUTO_DOOR_OPEN, stateStartTime := s.clock } RELAY_MIXER_DOOR true) := by
  simp [onEnterPressed, hs, h, millis]

/-- C9: in `AUTO_MOULDING_PROMPT`, whatever the clock, `handleAutoSequence` changes
nothing; an Up or a Down press leaves `autoState`, `stateStartTime` and the relays
unchanged; an Enter press during the run moves to `AUTO_DOOR_OPEN`, sets
`stateStartTime` to the current time and switches the door relay on, leaving the
other relays as they were. -/
theorem moulding_prompt_waits (s : Controller) (h : s.autoState = AUTO_MOULDING_PROMPT) :
    handleAutoSequence s = s ∧
    ((onUpPressed s).autoState = AUTO_MOULDING_PROMPT ∧
      (onUpPressed s).stateStartTime = s.stateStartTime ∧
      (onUpPressed s).relayExpander = s.relayExpander) ∧
    ((onDownPressed s).autoState = AUTO_MOULDING_PROMPT ∧
      (onDownPressed s).stateStartTime = s.stateStartTime ∧
      (onDownPressed s).relayExpander = s.relayExpander) ∧
    (s.currentState = RUN_AUTO →
      (onEnterPressed s).autoState = AUTO_DOOR_OPEN ∧
      (onEnterPressed s).stateStartTime = s.clock ∧
      ∀ pin, (onEnterPressed s).relayExpander.level pin
        = if pin = RELAY_MIXER_DOOR then LOW else s.relayExpander.level pin) := by
  refine ⟨?_, ⟨?_, (onUpPressed_frame s).2.1, (onUpPressed_frame s).2.2.1⟩,
    ⟨?_, (onDownPressed_frame s).2.1, (onDownPressed_frame s).2.2.1⟩, ?_⟩
  · simp [handleAutoSequence, autoSwitch, h]
  · rw [(onUpPressed_frame s).1, h]
  · rw [(onDownPressed_frame s).1, h]
  · intro hs
    rw [onEnterPressed_prompt s hs h]
    simp [displayAutoStatus, lcdDo, setRelay, delay, relayWrite, PCF8575.digitalWrite]

/-- C9 (witness): the sample run waits in the prompt from 10800 to 20000 and the
Enter press at 20000 opens the door. -/
theorem moulding_prompt_waits_witness :
    handleAutoSequence (setClock run5 20000) = setClock run5 20000 ∧
    run6.autoState = AUTO_DOOR_OPEN ∧ run6.stateStartTime = 20000 ∧
    relayOn run6 RELAY_MIXER_DOOR :=
  ⟨(moulding_prompt_waits (setClock run5 20000) (by decide)).1,
   ((moulding_prompt_waits (setClock run5 20000) (by decide)).2.2.2 (by decide)).1,
   ((moulding_prompt_waits (setClock run5 20000) (by decide)).2.2.2 (by decide)).2.1,
   by decide⟩

/-! ## C10: the mixer stays on -/

theorem autoSwitch_frame (s : Controller) (t : Nat) :
    (autoSwitch s t).autoRunning = s.autoRunning ∧
    (autoSwitch s t).currentState = s.currentState ∧
    (autoSwitch s t).timers = s.timers ∧
    (autoSwitch s t).eeprom = s.eeprom ∧
    (autoSwitch s t).relayExpander.level RELAY_MIXER = s.relayExpander.level RELAY_MIXER := by
  unfold autoSwitch
  cases ha : s.autoState <;> simp only [] <;> (try split_ifs) <;>
    simp [displayAutoStatus, lcdDo, setRelay, delay, relayWrite, PCF8575.digitalWrite,
      RELAY_MIXER, RELAY_PAPER_SHREDDER, RELAY_STARCH_FEEDER, RELAY_WATER_PUMP, RELAY_MIXER_DOOR,
      P0, P1, P3, P4, P5]

theorem runningInv_start (s : Controller) : runningInv (startAutoRun s) := by
  intro _
  refine ⟨(startAutoRun_fields s).1, ?_⟩
  simp [relayOn, startAutoRun_level]

theorem runningInv_tick (s : Controller) (h : runningInv s) :
    runningInv (handleAutoSequence s) := by
  unfold runningInv relayOn at *
  rw [(handleAutoSequence_core s).2.2.2.1, (handleAutoSequence_core s).2.2.2.2.1,
    (handleAutoSequence_core s).2.2.1, (autoSwitch_frame s s.clock).1,
    (autoSwitch_frame s s.clock).2.1, (autoSwitch_frame s s.clock).2.2.2.2]
  exact h

theorem runningInv_up (s : Controller) (h : runningInv s) : runningInv (onUpPressed s) := by
  unfold runningInv relayOn at *
  rw [(onUpPressed_frame s).2.2.2.1, (onUpPressed_frame s).2.2.2.2.1, (onUpPressed_frame s).2.2.1]
  exact h

theorem runningInv_down (s : Controller) (h : runningInv s) : runningInv (onDownPressed s) := by
  unfold runningInv relayOn at *
  rw [(onDownPressed_frame s).2.2.2.1, (onDownPressed_frame s).2.2.2.2.1,
    (onDownPressed_frame s).2.2.1]
  exact h

theorem runningInv_enter (s : Controller) (h : runningInv s) : runningInv (onEnterPressed s) := by
  by_cases hr : s.currentState = RUN_AUTO
  · by_cases hp : s.autoState = AUTO_MOULDING_PROMPT
    · rw [onEnterPressed_prompt s hr hp]
      unfold runningInv relayOn at *
      simpa [displayAutoStatus, lcdDo, setRelay, delay, relayWrite, PCF8575.digitalWrite,
        RELAY_MIXER, RELAY_MIXER_DOOR, P1, P4] using h
    · by_cases hc : s.autoState = AUTO_COMPLETE
      · intro hrun
        simp [onEnterPressed, hr, hc, displayMainMenu, lcdDo, allRelaysOff, delay, relayWrite]
          at hrun
      · have : onEnterPressed s = s := by simp [onEnterPressed, hr, hp, hc]
        rw [this]; exact h
  · have hoff : s.autoRunning = false := by
      cases hb : s.autoRunning
      · rfl
      · exact absurd (h hb).1 hr
    by_cases hstart : onEnterPressed s = startAutoRun s
    · rw [hstart]; exact runningInv_start s
    · intro hrun
      exfalso
      revert hrun hstart
      unfold onEnterPressed
      simp only []
      split_ifs <;>
        simp [hoff, displayMainMenu, displaySettingsMenu, displayTestMenu, lcdDo, allRelaysOff,
          delay, relayWrite, saveTimersToEEPROM, (enterTimerEdit_frame s s.currentMenuIndex).2.2.1,
          (toggleTestRelay_frame s s.currentMenuIndex).2.2.1, (saveTimerEdit_frame s).2.2.1]

theorem runningInv_handleUpButton (s : Controller) (t : Nat) (r : Bool) (h : runningInv s) :
    runningInv (handleUpButton s t r) := by
  unfold handleUpButton
  simp only []
  split_ifs
  · exact runningInv_up s h
  · exact h
  · exact h

theorem runningInv_handleEnterButton (s : Controller) (t : Nat) (r : Bool) (h : runningInv s) :
    runningInv (handleEnterButton s t r) := by
  unfold handleEnterButton
  simp only []
  split_ifs
  · exact runningInv_enter s h
  · exact h
  · exact h

theorem runningInv_handleDownButton (s : Controller) (t : Nat) (r : Bool) (h : runningInv s) :
    runningInv (handleDownButton s t r) := by
  unfold handleDownButton
  simp only []
  split_ifs
  · exact runningInv_down s h
  · exact h
  · exact h

theorem runningInv_handleButtons (s : Controller) (b : Buttons) (h : runningInv s) :
    runningInv (handleButtons s b) := by
  unfold handleButtons
  simp only []
  split_ifs
  · intro hrun
    rw [(emergencyStop_fields s).1] at hrun
    exact absurd hrun (by decide)
  · exact runningInv_handleDownButton _ _ _
      (runningInv_handleEnterButton _ _ _ (runningInv_handleUpButton _ _ _ h))

theorem runningInv_update (s : Controller) (b : Buttons) (h : runningInv s) :
    runningInv (update s b) := by
  unfold update
  simp only []
  split_ifs
  · exact runningInv_tick _ (runningInv_handleButtons s b h)
  · exact runningInv_handleButtons s b h

theorem runningInv_of_reachable (s : Controller) (h : Reachable s) : runningInv s := by
  induction h with
  | start s0 => exact runningInv_start s0
  | clock s t _ ih => exact ih
  | tick s _ ih => exact runningInv_tick s ih
  | up s _ ih => exact runningInv_up s ih
  | down s _ ih => exact runningInv_down s ih
  | enter s _ ih => exact runningInv_enter s ih
  | buttons s b _ ih => exact runningInv_handleButtons s b ih
  | update s b _ ih => exact runningInv_update s b ih

/-- C10: in every state reachable from `startAutoRun` by clock changes,
`handleAutoSequence` ticks, button presses, button polls and `update()` calls, the
mixer relay is on whenever `autoRunning = true`; hence an `update()` from such a state
that ends with the mixer off ends with `autoRunning = false` (emergency stop or
acknowledged completion, both through `allRelaysOff`). -/
theorem mixer_on_while_running (s : Controller) (h : Reachable s) :
    (s.autoRunning = true → relayOn s RELAY_MIXER) ∧
    (∀ b, ¬ relayOn (update s b) RELAY_MIXER → (update s b).autoRunning = false) := by
  refine ⟨fun hr => (runningInv_of_reachable s h hr).2, fun b hoff => ?_⟩
  cases hb : (update s b).autoRunning
  · rfl
  · exact absurd (runningInv_of_reachable _ (Reachable.update s b h) hb).2 hoff

/-- C10 (witness): at the end of the sample run, back in the moulding prompt after one
door cycle, the run is active and the mixer is on; the emergency stop from there ends
with the mixer off and `autoRunning = false`. -/
theorem mixer_on_while_running_witness :
    run8.autoRunning = true ∧ run8.autoState = AUTO_MOULDING_PROMPT ∧
    relayOn run8 RELAY_MIXER ∧
    ¬ relayOn (update run8 allPressed) RELAY_MIXER ∧
    (update run8 allPressed).autoRunning = false :=
  have h0 : Reachable run0 := Reachable.start _
  have h1 : Reachable run1 := Reachable.tick _ (Reachable.clock _ 4300 h0)
  have h2 : Reachable run2 := Reachable.tick _ (Reachable.clock _ 6300 h1)
  have h3 : Reachable run3 := Reachable.tick _ (Reachable.clock _ 9300 h2)
  have h4 : Reachable run4 := Reachable.tick _ (Reachable.clock _ 10300 h3)
  have h5 : Reachable run5 := Reachable.tick _ (Reachable.clock _ 10800 h4)
  have h6 : Reachable run6 := Reachable.enter _ (Reachable.clock _ 20000 h5)
  have h7 : Reachable run7 := Reachable.tick _ (Reachable.clock _ 21000 h6)
  have h8 : Reachable run8 := Reachable.tick _ (Reachable.clock _ 23000 h7)
  ⟨rfl, by decide, (mixer_on_while_running run8 h8).1 rfl, by decide,
    (mixer_on_while_running run8 h8).2 allPressed (by decide)⟩

/-! ## C11, C12: editing a timer -/

theorem onUpPressed_edit (s : Controller) (hs : s.currentState = EDIT_TIMER) :
    (onUpPressed s).currentState = EDIT_TIMER ∧
    (onUpPressed s).timerEditValue
      = if uadd s.timerEditValue 1000 > MAX_TIMER_VALUE then MAX_TIMER_VALUE
        else uadd s.timerEditValue 1000 := by
  unfold onUpPressed
  simp only [hs]
  split_ifs <;> simp_all [displayTimerEdit, lcdDo]

theorem onDownPressed_edit (s : Controller) (hs : s.currentState = EDIT_TIMER) :
    (onDownPressed s).currentState = EDIT_TIMER ∧
    (onDownPressed s).timerEditValue
      = if usub s.timerEditValue 1000 < MIN_TIMER_VALUE then MIN_TIMER_VALUE
        else usub s.timerEditValue 1000 := by
  unfold onDownPressed
  simp only [hs]
  split_ifs <;> simp_all [displayTimerEdit, lcdDo]

theorem pressOnce_edit (s : Controller) (p : EditPress) (hs : s.currentState = EDIT_TIMER)
    (hv : timerInRange s.timerEditValue) :
    (pressOnce s p).currentState = EDIT_TIMER ∧ timerInRange (pressOnce s p).timerEditValue := by
  cases p
  · refine ⟨(onUpPressed_edit s hs).1, ?_⟩
    show timerInRange (onUpPressed s).timerEditValue
    rw [(onUpPressed_edit s hs).2]
    unfold timerInRange uadd ULONG_MOD MIN_TIMER_VALUE MAX_TIMER_VALUE at *
    split_ifs <;> omega
  · refine ⟨(onDownPressed_edit s hs).1, ?_⟩
    show timerInRange (onDownPressed s).timerEditValue
    rw [(onDownPressed_edit s hs).2]
    unfold timerInRange usub ULONG_MOD MIN_TIMER_VALUE MAX_TIMER_VALUE at *
    split_ifs <;> omega

theorem pressAll_edit (presses : List EditPress) (s : Controller)
    (hs : s.currentState = EDIT_TIMER) (hv : timerInRange s.timerEditValue) :
    (pressAll s presses).currentState = EDIT_TIMER ∧
    timerInRange (pressAll s presses).timerEditValue := by
  induction presses generalizing s with
  | nil => exact ⟨hs, hv⟩
  | cons p rest ih =>
    have hp := pressOnce_edit s p hs hv
    exact ih (pressOnce s p) hp.1 hp.2

/-- C12: in `EDIT_TIMER` mode with `timerEditValue = v` in [1000, 300000], an Up press
leaves `min (v + 1000) 300000` and a Down press leaves `max (v - 1000) 1000`, and
after any sequence of Up and Down presses the value is still in [1000, 300000]. -/
theorem edit_step_arithmetic (s : Controller) (hs : s.currentState = EDIT_TIMER)
    (hv : timerInRange s.timerEditValue) :
    (onUpPressed s).timerEditValue = min (s.timerEditValue + 1000) MAX_TIMER_VALUE ∧
    (onDownPressed s).timerEditValue = max (s.timerEditValue - 1000) MIN_TIMER_VALUE ∧
    ∀ presses : List EditPress, timerInRange (pressAll s presses).timerEditValue := by
  refine ⟨?_, ?_, fun presses => (pressAll_edit presses s hs hv).2⟩
  · rw [(onUpPressed_edit s hs).2]
    unfold timerInRange uadd ULONG_MOD MIN_TIMER_VALUE MAX_TIMER_VALUE at *
    split_ifs <;> omega
  · rw [(onDownPressed_edit s hs).2]
    unfold timerInRange usub ULONG_MOD MIN_TIMER_VALUE MAX_TIMER_VALUE at *
    split_ifs <;> omega

/-- C12 (witness): from 5000, Up gives 6000 and Down gives 4000; from 299500 Up gives
300000; from 1500 Down gives 1000; three Downs and an Up from 2000 give 2000. -/
theorem edit_step_arithmetic_witness :
    (onUpPressed (editBoard 5000)).timerEditValue = 6000 ∧
    (onDownPressed (editBoard 5000)).timerEditValue = 4000 ∧
    (onUpPressed (editBoard 299500)).timerEditValue = 300000 ∧
    (onDownPressed (editBoard 1500)).timerEditValue = 1000 ∧
    (pressAll (editBoard 2000) [.down, .down, .down, .up]).timerEditValue = 2000 ∧
    timerInRange (pressAll (editBoard 2000) [.down, .down, .down, .up]).timerEditValue :=
  ⟨(edit_step_arithmetic (editBoard 5000) rfl (by decide)).1,
   (edit_step_arithmetic (editBoard 5000) rfl (by decide)).2.1,
   (edit_step_arithmetic (editBoard 299500) rfl (by decide)).1,
   (edit_step_arithmetic (editBoard 1500) rfl (by decide)).2.1,
   by decide,
   (edit_step_arithmetic (editBoard 2000) rfl (by decide)).2.2 [.down, .down, .down, .up]⟩

/-! ## C13: the layout of the saved record -/

theorem EEPROM.write_other (e : EEPROM) (addr v a : Nat) (h : a ≠ addr) :
    (e.write addr v) a = e a := by
  simp [EEPROM.write, h]

theorem EEPROM.put_other (e : EEPROM) (addr v a : Nat) (h : a < addr ∨ addr + 3 < a) :
    (e.put addr v) a = e a := by
  unfold EEPROM.put
  rw [EEPROM.write_other _ _ _ _ (by omega), EEPROM.write_other _ _ _ _ (by omega),
    EEPROM.write_other _ _ _ _ (by omega), EEPROM.write_other _ _ _ _ (by omega)]

/-- C13: `saveTimersToEEPROM` leaves the marker 0xAB at address 0 and the five
durations as 4-byte fields at addresses 1, 5, 9, 13 and 17, in the order starch,
paper, water pump, mixing, door; the 21 bytes at addresses 0..20 are determined by the
timers alone, and every byte at address 21 or above is left unchanged. -/
theorem saved_record_layout (s : Controller) :
    (saveTimersToEEPROM s).eeprom.read 0 = 0xAB ∧
    (saveTimersToEEPROM s).eeprom.get 1 = s.timers.starchOnTime % ULONG_MOD ∧
    (saveTimersToEEPROM s).eeprom.get 5 = s.timers.paperOnTime % ULONG_MOD ∧
    (saveTimersToEEPROM s).eeprom.get 9 = s.timers.waterPumpTime % ULONG_MOD ∧
    (saveTimersToEEPROM s).eeprom.get 13 = s.timers.mixingTime % ULONG_MOD ∧
    (saveTimersToEEPROM s).eeprom.get 17 = s.timers.doorOpenTime % ULONG_MOD ∧
    (∀ s2 : Controller, s2.timers = s.timers → ∀ a, a ≤ 20 →
      (saveTimersToEEPROM s2).eeprom a = (saveTimersToEEPROM s).eeprom a) ∧
    (∀ a, 21 ≤ a → (saveTimersToEEPROM s).eeprom a = s.eeprom a) := by
  refine ⟨saveTimersToEEPROM_magic s, ?_, ?_, ?_, ?_, ?_, ?_, ?_⟩
  · simp [saveTimersToEEPROM, EEPROM.get, EEPROM.put, EEPROM.write, EEPROM.read,
      EEPROM_MAGIC_ADDRESS, EEPROM_DATA_ADDRESS, SIZEOF_ULONG, ULONG_MOD]
    omega
  · simp [saveTimersToEEPROM, EEPROM.get, EEPROM.put, EEPROM.write, EEPROM.read,
      EEPROM_MAGIC_ADDRESS, EEPROM_DATA_ADDRESS, SIZEOF_ULONG, ULONG_MOD]
    omega
  · simp [saveTimersToEEPROM, EEPROM.get, EEPROM.put, EEPROM.write, EEPROM.read,
      EEPROM_MAGIC_ADDRESS, EEPROM_DATA_ADDRESS, SIZEOF_ULONG, ULONG_MOD]
    omega
  · simp [saveTimersToEEPROM, EEPROM.get, EEPROM.put, EEPROM.write, EEPROM.read,
      EEPROM_MAGIC_ADDRESS, EEPROM_DATA_ADDRESS, SIZEOF_ULONG, ULONG_MOD]
    omega
  · simp [saveTimersToEEPROM, EEPROM.get, EEPROM.put, EEPROM.write, EEPROM.read,
      EEPROM_MAGIC_ADDRESS, EEPROM_DATA_ADDRESS, SIZEOF_ULONG, ULONG_MOD]
    omega
  · intro s2 h2 a ha
    interval_cases a <;>
      simp [saveTimersToEEPROM, EEPROM.put, EEPROM.write, EEPROM_MAGIC_ADDRESS,
        EEPROM_DATA_ADDRESS, SIZEOF_ULONG, h2]
  · intro a ha
    simp only [saveTimersToEEPROM, EEPROM_MAGIC_ADDRESS, EEPROM_DATA_ADDRESS, SIZEOF_ULONG]
    rw [EEPROM.put_other _ _ _ _ (by omega), EEPROM.put_other _ _ _ _ (by omega),
      EEPROM.put_other _ _ _ _ (by omega), EEPROM.put_other _ _ _ _ (by omega),
      EEPROM.put_other _ _ _ _ (by omega), EEPROM.write_other _ _ _ _ (by omega)]

/-- C13 (witness): saving the sample durations over an erased EEPROM puts 0xAB at
address 0 and 3000, 2000, 1000, 500, 1000 at addresses 1, 5, 9, 13, 17, leaves
address 21 erased, and writes address 20 as it does over a zeroed EEPROM. -/
theorem saved_record_layout_witness :
    (saveTimersToEEPROM sampleBoard).eeprom.read 0 = 0xAB ∧
    (saveTimersToEEPROM sampleBoard).eeprom.get 1 = 3000 ∧
    (saveTimersToEEPROM sampleBoard).eeprom.get 5 = 2000 ∧
    (saveTimersToEEPROM sampleBoard).eeprom.get 9 = 1000 ∧
    (saveTimersToEEPROM sampleBoard).eeprom.get 13 = 500 ∧
    (saveTimersToEEPROM sampleBoard).eeprom.get 17 = 1000 ∧
    (saveTimersToEEPROM { zeroedBoard with timers := sampleTimers }).eeprom 20
      = (saveTimersToEEPROM sampleBoard).eeprom 20 ∧
    (saveTimersToEEPROM sampleBoard).eeprom 21 = 255 :=
  ⟨(saved_record_layout sampleBoard).1,
   (saved_record_layout sampleBoard).2.1,
   (saved_record_layout sampleBoard).2.2.1,
   (saved_record_layout sampleBoard).2.2.2.1,
   (saved_record_layout sampleBoard).2.2.2.2.1,
   (saved_record_layout sampleBoard).2.2.2.2.2.1,
   (saved_record_layout sampleBoard).2.2.2.2.2.2.1
     { zeroedBoard with timers := sampleTimers } rfl 20 (by decide),
   (saved_record_layout sampleBoard).2.2.2.2.2.2.2 21 (by decide)⟩

/-! ## C14: the timers during a run -/

theorem onEnterPressed_runAuto_frame (s : Controller) (hs : s.currentState = RUN_AUTO) :
    (onEnterPressed s).timers = s.timers ∧ (onEnterPressed s).eeprom = s.eeprom := by
  simp only [onEnterPressed, hs]
  split_ifs <;>
    simp_all [displayAutoStatus, displayMainMenu, lcdDo, setRelay, delay, relayWrite, allRelaysOff]

theorem handleUpButton_frame (s : Controller) (t : Nat) (r : Bool) :
    (handleUpButton s t r).timers = s.timers ∧ (handleUpButton s t r).eeprom = s.eeprom ∧
    (handleUpButton s t r).currentState = s.currentState := by
  unfold handleUpButton
  simp only []
  split_ifs <;>
    simp [(onUpPressed_frame s).2.2.2.2.1, (onUpPressed_frame s).2.2.2.2.2.1,
      (onUpPressed_frame s).2.2.2.2.2.2]

theorem handleDownButton_frame (s : Controller) (t : Nat) (r : Bool) :
    (handleDownButton s t r).timers = s.timers ∧ (handleDownButton s t r).eeprom = s.eeprom ∧
    (handleDownButton s t r).currentState = s.currentState := by
  unfold handleDownButton
  simp only []
  split_ifs <;>
    simp [(onDownPressed_frame s).2.2.2.2.1, (onDownPressed_frame s).2.2.2.2.2.1,
      (onDownPressed_frame s).2.2.2.2.2.2]

theorem handleEnterButton_runAuto_frame (s : Controller) (t : Nat) (r : Bool)
    (hs : s.currentState = RUN_AUTO) :
    (handleEnterButton s t r).timers = s.timers ∧
    (handleEnterButton s t r).eeprom = s.eeprom := by
  unfold handleEnterButton
  simp only []
  split_ifs <;>
    simp [(onEnterPressed_runAuto_frame s hs).1, (onEnterPressed_runAuto_frame s hs).2]

theorem handleButtons_runAuto_frame (s : Controller) (b : Buttons)
    (hs : s.currentState = RUN_AUTO) :
    (handleButtons s b).timers = s.timers ∧ (handleButtons s b).eeprom = s.eeprom := by
  unfold handleButtons
  simp only []
  split_ifs
  · exact ⟨(emergencyStop_fields s).2.2.2.2.2.1, (emergencyStop_fields s).2.2.2.2.2.2⟩
  · have hu := handleUpButton_frame s (millis s) (b.up == LOW)
    have he := handleEnterButton_runAuto_frame (handleUpButton s (millis s) (b.up == LOW))
      (millis s) (b.enter == LOW) (hu.2.2.trans hs)
    have hd := handleDownButton_frame
      (handleEnterButton (handleUpButton s (millis s) (b.up == LOW)) (millis s) (b.enter == LOW))
      (millis s) (b.down == LOW)
    exact ⟨hd.1.trans (he.1.trans hu.1), hd.2.1.trans (he.2.trans hu.2.1)⟩

theorem handleAutoSequence_frame (s : Controller) :
    (handleAutoSequence s).timers = s.timers ∧ (handleAutoSequence s).eeprom = s.eeprom := by
  rw [(handleAutoSequence_core s).2.2.2.2.2.1, (handleAutoSequence_core s).2.2.2.2.2.2]
  exact ⟨(autoSwitch_frame s s.clock).2.2.1, (autoSwitch_frame s s.clock).2.2.2.1⟩

/-- C14: in a state with `currentState = RUN_AUTO`, an Up, Down or Enter press, a
button poll with any readings (the emergency stop included), a `handleAutoSequence`
tick and a whole `update()` all leave the five timers and the EEPROM unchanged. -/
theorem timers_fixed_during_run (s : Controller) (hs : s.currentState = RUN_AUTO) :
    ((onUpPressed s).timers = s.timers ∧ (onUpPressed s).eeprom = s.eeprom) ∧
    ((onDownPressed s).timers = s.timers ∧ (onDownPressed s).eeprom = s.eeprom) ∧
    ((onEnterPressed s).timers = s.timers ∧ (onEnterPressed s).eeprom = s.eeprom) ∧
    (∀ b, (handleButtons s b).timers = s.timers ∧ (handleButtons s b).eeprom = s.eeprom) ∧
    ((handleAutoSequence s).timers = s.timers ∧ (handleAutoSequence s).eeprom = s.eeprom) ∧
    (∀ b, (update s b).timers = s.timers ∧ (update s b).eeprom = s.eeprom) := by
  refine ⟨⟨(onUpPressed_frame s).2.2.2.2.2.1, (onUpPressed_frame s).2.2.2.2.2.2⟩,
    ⟨(onDownPressed_frame s).2.2.2.2.2.1, (onDownPressed_frame s).2.2.2.2.2.2⟩,
    onEnterPressed_runAuto_frame s hs, fun b => handleButtons_runAuto_frame s b hs,
    handleAutoSequence_frame s, fun b => ?_⟩
  have hb := handleButtons_runAuto_frame s b hs
  unfold update
  simp only []
  split_ifs
  · have ht := handleAutoSequence_frame (handleButtons s b)
    exact ⟨ht.1.trans hb.1, ht.2.trans hb.2⟩
  · exact hb

/-- C14 (witness): in the sample run the Enter press at the prompt, the tick that
ends door open and an emergency stop all leave the sample durations in place. -/
theorem timers_fixed_during_run_witness :
    run6.timers = sampleTimers ∧ run7.timers = sampleTimers ∧
    (update run7 allPressed).timers = sampleTimers :=
  ⟨((timers_fixed_during_run (setClock run5 20000) rfl).2.2.1).1,
   ((timers_fixed_during_run (setClock run6 21000) rfl).2.2.2.2.1).1.trans (by decide),
   ((timers_fixed_during_run run7 rfl).2.2.2.2.2 allPressed).1.trans (by decide)⟩

/-! ## C15: starting a run -/

/-- C15: an Enter press in the main menu with Run Auto selected is `startAutoRun`,
and `startAutoRun`, whatever the relays were before, yields `currentState = RUN_AUTO`,
`autoRunning = true`, `autoState = AUTO_MIXER_PREP`, `stateStartTime` equal to the
clock value on entry, the mixer relay on and the feeder, shredder, pump and door
relays off. -/
theorem run_auto_start (s : Controller) :
    (s.currentState = MAIN_MENU → s.currentMenuIndex = RUN_AUTO_OPTION →
      onEnterPressed s = startAutoRun s) ∧
    (startAutoRun s).currentState = RUN_AUTO ∧
    (startAutoRun s).autoRunning = true ∧
    (startAutoRun s).autoState = AUTO_MIXER_PREP ∧
    (startAutoRun s).stateStartTime = s.clock ∧
    relayOn (startAutoRun s) RELAY_MIXER ∧
    ¬ relayOn (startAutoRun s) RELAY_STARCH_FEEDER ∧
    ¬ relayOn (startAutoRun s) RELAY_PAPER_SHREDDER ∧
    ¬ relayOn (startAutoRun s) RELAY_WATER_PUMP ∧
    ¬ relayOn (startAutoRun s) RELAY_MIXER_DOOR := by
  refine ⟨?_, (startAutoRun_fields s).1, (startAutoRun_fields s).2.1,
    (startAutoRun_fields s).2.2.1, (startAutoRun_fields s).2.2.2.1, ?_, ?_, ?_, ?_, ?_⟩
  · intro hs hi
    simp [onEnterPressed, hs, hi, RUN_AUTO_OPTION, SETTINGS]
  all_goals
    simp [relayOn, startAutoRun_level, RELAY_MIXER, RELAY_STARCH_FEEDER, RELAY_PAPER_SHREDDER,
      RELAY_WATER_PUMP, RELAY_MIXER_DOOR, P0, P1, P3, P4, P5, HIGH, LOW]

/-- C15 (witness): with every relay on beforehand, selecting Run Auto leaves exactly
the mixer on and starts mixer prep at the current clock value 2300. -/
theorem run_auto_start_witness :
    relaysLit relaysLeftOn
      = [RELAY_STARCH_FEEDER, RELAY_PAPER_SHREDDER, RELAY_WATER_PUMP, RELAY_MIXER,
          RELAY_MIXER_DOOR] ∧
    onEnterPressed relaysLeftOn = startAutoRun relaysLeftOn ∧
    (onEnterPressed relaysLeftOn).autoState = AUTO_MIXER_PREP ∧
    (onEnterPressed relaysLeftOn).stateStartTime = 2300 ∧
    relaysLit (onEnterPressed relaysLeftOn) = [RELAY_MIXER] :=
  ⟨by decide, (run_auto_start relaysLeftOn).1 rfl rfl, by decide, by decide, by decide⟩

/-! ## C16: no early transition -/

/-- C16: while the elapsed time `clock - stateStartTime` is below the duration of the
current timed phase (2000 ms for mixer prep and door close, the matching timer
otherwise), `handleAutoSequence` leaves `autoState`, `stateStartTime` and the relay
expander (levels and write log) unchanged. -/
theorem no_early_transition (s : Controller) :
    (s.autoState = AUTO_MIXER_PREP → usub s.clock s.stateStartTime < MIXER_PREP_TIME →
      (handleAutoSequence s).autoState = s.autoState ∧
      (handleAutoSequence s).stateStartTime = s.stateStartTime ∧
      (handleAutoSequence s).relayExpander = s.relayExpander) ∧
    (s.autoState = AUTO_PAPER_SHREDDER → usub s.clock s.stateStartTime < s.timers.paperOnTime →
      (handleAutoSequence s).autoState = s.autoState ∧
      (handleAutoSequence s).stateStartTime = s.stateStartTime ∧
      (handleAutoSequence s).relayExpander = s.relayExpander) ∧
    (s.autoState = AUTO_STARCH_FEEDER → usub s.clock s.stateStartTime < s.timers.starchOnTime →
      (handleAutoSequence s).autoState = s.autoState ∧
      (handleAutoSequence s).stateStartTime = s.stateStartTime ∧
      (handleAutoSequence s).relayExpander = s.relayExpander) ∧
    (s.autoState = AUTO_WATER_PUMP → usub s.clock s.stateStartTime < s.timers.waterPumpTime →
      (handleAutoSequence s).autoState = s.autoState ∧
      (handleAutoSequence s).stateStartTime = s.stateStartTime ∧
      (handleAutoSequence s).relayExpander = s.relayExpander) ∧
    (s.autoState = AUTO_MIXING → usub s.clock s.stateStartTime < s.timers.mixingTime →
      (handleAutoSequence s).autoState = s.autoState ∧
      (handleAutoSequence s).stateStartTime = s.stateStartTime ∧
      (handleAutoSequence s).relayExpander = s.relayExpander) ∧
    (s.autoState = AUTO_DOOR_OPEN → usub s.clock s.stateStartTime < s.timers.doorOpenTime →
      (handleAutoSequence s).autoState = s.autoState ∧
      (handleAutoSequence s).stateStartTime = s.stateStartTime ∧
      (handleAutoSequence s).relayExpander = s.relayExpander) ∧
    (s.autoState = AUTO_DOOR_CLOSE → usub s.clock s.stateStartTime < DOOR_CLOSE_TIME →
      (handleAutoSequence s).autoState = s.autoState ∧
      (handleAutoSequence s).stateStartTime = s.stateStartTime ∧
      (handleAutoSequence s).relayExpander = s.relayExpander) := by
  rw [(handleAutoSequence_core s).1, (handleAutoSequence_core s).2.1,
    (handleAutoSequence_core s).2.2.1]
  refine ⟨?_, ?_, ?_, ?_, ?_, ?_, ?_⟩ <;> intro h hd <;>
    simp [autoSwitch, h, not_le.mpr hd]

/-- C16 (witness): in the sample run, one millisecond before each deadline the tick
changes neither the phase nor the start time. -/
theorem no_early_transition_witness :
    (handleAutoSequence (setClock run0 4299)).autoState = AUTO_MIXER_PREP ∧
    (handleAutoSequence (setClock run1 6299)).autoState = AUTO_PAPER_SHREDDER ∧
    (handleAutoSequence (setClock run2 9299)).autoState = AUTO_STARCH_FEEDER ∧
    (handleAutoSequence (setClock run3 10299)).autoState = AUTO_WATER_PUMP ∧
    (handleAutoSequence (setClock run4 10799)).autoState = AUTO_MIXING ∧
    (handleAutoSequence (setClock run6 20999)).autoState = AUTO_DOOR_OPEN ∧
    (handleAutoSequence (setClock run7 22999)).autoState = AUTO_DOOR_CLOSE ∧
    (handleAutoSequence (setClock run7 22999)).stateStartTime = 21000 ∧
    (handleAutoSequence (setClock run7 22999)).relayExpander = run7.relayExpander :=
  ⟨((no_early_transition (setClock run0 4299)).1 rfl (by decide)).1,
   ((no_early_transition (setClock run1 6299)).2.1 rfl (by decide)).1,
   ((no_early_transition (setClock run2 9299)).2.2.1 rfl (by decide)).1,
   ((no_early_transition (setClock run3 10299)).2.2.2.1 rfl (by decide)).1,
   ((no_early_transition (setClock run4 10799)).2.2.2.2.1 rfl (by decide)).1,
   ((no_early_transition (setClock run6 20999)).2.2.2.2.2.1 rfl (by decide)).1,
   ((no_early_transition (setClock run7 22999)).2.2.2.2.2.2 rfl (by decide)).1,
   ((no_early_transition (setClock run7 22999)).2.2.2.2.2.2 rfl (by decide)).2.1,
   ((no_early_transition (setClock run7 22999)).2.2.2.2.2.2 rfl (by decide)).2.2⟩

/-! ## The invariant of a run (C17, C18, C20) -/

theorem relaysMatchPhase_autoSwitch (s : Controller) (t : Nat) (h : relaysMatchPhase s) :
    relaysMatchPhase (autoSwitch s t) := by
  unfold relaysMatchPhase relayOn at *
  unfold autoSwitch
  cases ha : s.autoState <;> simp only [] <;> (try split_ifs) <;>
    simp_all [displayAutoStatus, lcdDo, setRelay, delay, relayWrite, PCF8575.digitalWrite,
      RELAY_MIXER, RELAY_PAPER_SHREDDER, RELAY_STARCH_FEEDER, RELAY_WATER_PUMP, RELAY_MIXER_DOOR,
      P0, P1, P3, P4, P5, LOW, HIGH]

theorem autoSwitch_autoState_ne (s : Controller) (t : Nat) (hi : s.autoState ≠ AUTO_IDLE)
    (hc : s.autoState ≠ AUTO_COMPLETE) :
    (autoSwitch s t).autoState ≠ AUTO_IDLE ∧ (autoSwitch s t).autoState ≠ AUTO_COMPLETE := by
  unfold autoSwitch
  cases ha : s.autoState <;> simp only [] <;> (try split_ifs) <;>
    simp_all [displayAutoStatus, lcdDo, setRelay, delay, relayWrite]

theorem phaseInv_start (s : Controller) : phaseInv (startAutoRun s) := by
  refine ⟨?_, ?_, ?_, fun _ => ?_⟩
  · simp [(startAutoRun_fields s).1, (startAutoRun_fields s).2.1]
  · simp [(startAutoRun_fields s).2.2.1]
  · simp [(startAutoRun_fields s).2.2.1]
  · simp [relaysMatchPhase, relayOn, startAutoRun_level, (startAutoRun_fields s).2.2.1,
      RELAY_MIXER, RELAY_PAPER_SHREDDER, RELAY_STARCH_FEEDER, RELAY_WATER_PUMP, RELAY_MIXER_DOOR,
      P0, P1, P3, P4, P5, LOW, HIGH]

theorem phaseInv_tick (s : Controller) (h : phaseInv s) : phaseInv (handleAutoSequence s) := by
  obtain ⟨h1, h2, h3, h4⟩ := h
  have hne := autoSwitch_autoState_ne s s.clock h2 h3
  unfold phaseInv relaysMatchPhase relayOn at *
  rw [(handleAutoSequence_core s).1, (handleAutoSequence_core s).2.2.1,
    (handleAutoSequence_core s).2.2.2.1, (handleAutoSequence_core s).2.2.2.2.1,
    (autoSwitch_frame s s.clock).1, (autoSwitch_frame s s.clock).2.1]
  exact ⟨h1, hne.1, hne.2, fun hr => relaysMatchPhase_autoSwitch s s.clock (h4 hr)⟩

theorem phaseInv_up (s : Controller) (h : phaseInv s) : phaseInv (onUpPressed s) := by
  unfold phaseInv relaysMatchPhase relayOn at *
  rw [(onUpPressed_frame s).1, (onUpPressed_frame s).2.2.1, (onUpPressed_frame s).2.2.2.1,
    (onUpPressed_frame s).2.2.2.2.1]
  exact h

theorem phaseInv_down (s : Controller) (h : phaseInv s) : phaseInv (onDownPressed s) := by
  unfold phaseInv relaysMatchPhase relayOn at *
  rw [(onDownPressed_frame s).1, (onDownPressed_frame s).2.2.1, (onDownPressed_frame s).2.2.2.1,
    (onDownPressed_frame s).2.2.2.2.1]
  exact h

theorem onEnterPressed_outside_run (s : Controller) (hr : s.currentState ≠ RUN_AUTO) :
    onEnterPressed s = startAutoRun s ∨
    ((onEnterPressed s).autoRunning = s.autoRunning ∧
      (onEnterPressed s).currentState ≠ RUN_AUTO ∧
      (onEnterPressed s).autoState = s.autoState) := by
  by_cases hstart : onEnterPressed s = startAutoRun s
  · exact Or.inl hstart
  · right
    revert hstart
    unfold onEnterPressed
    simp only []
    split_ifs <;>
      simp_all [displayMainMenu, displaySettingsMenu, displayTestMenu, lcdDo, allRelaysOff,
        delay, relayWrite, saveTimersToEEPROM, enterTimerEdit_frame, toggleTestRelay_frame,
        saveTimerEdit_frame]

theorem phaseInv_enter (s : Controller) (h : phaseInv s) : phaseInv (onEnterPressed s) := by
  by_cases hr : s.currentState = RUN_AUTO
  · by_cases hp : s.autoState = AUTO_MOULDING_PROMPT
    · rw [onEnterPressed_prompt s hr hp]
      unfold phaseInv relaysMatchPhase relayOn at *
      simp_all [displayAutoStatus, lcdDo, setRelay, delay, relayWrite, PCF8575.digitalWrite,
        RELAY_MIXER, RELAY_PAPER_SHREDDER, RELAY_STARCH_FEEDER, RELAY_WATER_PUMP,
        RELAY_MIXER_DOOR, P0, P1, P3, P4, P5, LOW, HIGH]
    · have : onEnterPressed s = s := by simp [onEnterPressed, hr, hp, h.2.2.1]
      rw [this]; exact h
  · rcases onEnterPressed_outside_run s hr with hstart | ⟨ha, hc, hst⟩
    · rw [hstart]; exact phaseInv_start s
    · have hoff : s.autoRunning = false := by
        cases hb : s.autoRunning
        · rfl
        · exact absurd (h.1.mp hb) hr
      refine ⟨?_, ?_, ?_, ?_⟩
      · rw [ha, hoff]; simp [hc]
      · rw [hst]; exact h.2.1
      · rw [hst]; exact h.2.2.1
      · rw [ha, hoff]; intro hx; exact absurd hx (by decide)

theorem phaseInv_handleUpButton (s : Controller) (t : Nat) (r : Bool) (h : phaseInv s) :
    phaseInv (handleUpButton s t r) := by
  unfold handleUpButton
  simp only []
  split_ifs
  · exact phaseInv_up s h
  · exact h
  · exact h

theorem phaseInv_handleEnterButton (s : Controller) (t : Nat) (r : Bool) (h : phaseInv s) :
    phaseInv (handleEnterButton s t r) := by
  unfold handleEnterButton
  simp only []
  split_ifs
  · exact phaseInv_enter s h
  · exact h
  · exact h

theorem phaseInv_handleDownButton (s : Controller) (t : Nat) (r : Bool) (h : phaseInv s) :
    phaseInv (handleDownButton s t r) := by
  unfold handleDownButton
  simp only []
  split_ifs
  · exact phaseInv_down s h
  · exact h
  · exact h

theorem phaseInv_emergencyStop (s : Controller) (h : phaseInv s) : phaseInv (emergencyStop s) := by
  have hf := emergencyStop_fields s
  refine ⟨?_, ?_, ?_, ?_⟩
  · rw [hf.1, hf.2.1]; decide
  · rw [hf.2.2.2.1]; exact h.2.1
  · rw [hf.2.2.2.1]; exact h.2.2.1
  · rw [hf.1]; intro hx; exact absurd hx (by decide)

theorem phaseInv_handleButtons (s : Controller) (b : Buttons) (h : phaseInv s) :
    phaseInv (handleButtons s b) := by
  unfold handleButtons
  simp only []
  split_ifs
  · exact phaseInv_emergencyStop s h
  · exact phaseInv_handleDownButton _ _ _
      (phaseInv_handleEnterButton _ _ _ (phaseInv_handleUpButton _ _ _ h))

theorem phaseInv_update (s : Controller) (b : Buttons) (h : phaseInv s) :
    phaseInv (update s b) := by
  unfold update
  simp only []
  split_ifs
  · exact phaseInv_tick _ (phaseInv_handleButtons s b h)
  · exact phaseInv_handleButtons s b h

theorem phaseInv_of_reachable (s : Controller) (h : Reachable s) : phaseInv s := by
  induction h with
  | start s0 => exact phaseInv_start s0
  | clock s t _ ih => exact ih
  | tick s _ ih => exact phaseInv_tick s ih
  | up s _ ih => exact phaseInv_up s ih
  | down s _ ih => exact phaseInv_down s ih
  | enter s _ ih => exact phaseInv_enter s ih
  | buttons s b _ ih => exact phaseInv_handleButtons s b ih
  | update s b _ ih => exact phaseInv_update s b ih

theorem handleUpButton_autoRunning (s : Controller) (t : Nat) (r : Bool) :
    (handleUpButton s t r).autoRunning = s.autoRunning := by
  unfold handleUpButton
  simp only []
  split_ifs <;> simp [(onUpPressed_frame s).2.2.2.1]

theorem handleDownButton_autoRunning (s : Controller) (t : Nat) (r : Bool) :
    (handleDownButton s t r).autoRunning = s.autoRunning := by
  unfold handleDownButton
  simp only []
  split_ifs <;> simp [(onDownPressed_frame s).2.2.2.1]

theorem onEnterPressed_keeps_running (s : Controller) (h : phaseInv s)
    (hr : s.autoRunning = true) : (onEnterPressed s).autoRunning = true := by
  have hs : s.currentState = RUN_AUTO := h.1.mp hr
  by_cases hp : s.autoState = AUTO_MOULDING_PROMPT
  · rw [onEnterPressed_prompt s hs hp]
    simpa [displayAutoStatus, lcdDo, setRelay, delay, relayWrite] using hr
  · have : onEnterPressed s = s := by simp [onEnterPressed, hs, hp, h.2.2.1]
    rw [this]; exact hr

theorem handleEnterButton_keeps_running (s : Controller) (t : Nat) (r : Bool) (h : phaseInv s)
    (hr : s.autoRunning = true) : (handleEnterButton s t r).autoRunning = true := by
  unfold handleEnterButton
  simp only []
  split_ifs <;> simp [hr, onEnterPressed_keeps_running s h hr]

theorem update_stops_only_by_abort (s : Controller) (b : Buttons) (h : phaseInv s)
    (hr : s.autoRunning = true) (hoff : (update s b).autoRunning = false) :
    update s b = emergencyStop s := by
  have hu := phaseInv_handleUpButton s (millis s) (b.up == LOW) h
  have hur : (handleUpButton s (millis s) (b.up == LOW)).autoRunning = true :=
    (handleUpButton_autoRunning s _ _).trans hr
  have her := handleEnterButton_keeps_running _ (millis s) (b.enter == LOW) hu hur
  have hdr : (handleDownButton (handleEnterButton (handleUpButton s (millis s) (b.up == LOW))
      (millis s) (b.enter == LOW)) (millis s) (b.down == LOW)).autoRunning = true :=
    (handleDownButton_autoRunning _ _ _).trans her
  revert hoff
  unfold update handleButtons
  simp only []
  split_ifs with hc1 hc2 hc3
  · exact absurd hc2.1 (by rw [(emergencyStop_fields s).2.1]; decide)
  · intro _; rfl
  · intro hoff
    rw [(handleAutoSequence_core _).2.2.2.1, (autoSwitch_frame _ _).1, hdr] at hoff
    exact absurd hoff (by decide)
  · intro hoff
    rw [hdr] at hoff
    exact absurd hoff (by decide)

theorem reachable_run5 : Reachable run5 :=
  have h0 : Reachable run0 := Reachable.start _
  have h1 : Reachable run1 := Reachable.tick _ (Reachable.clock _ 4300 h0)
  have h2 : Reachable run2 := Reachable.tick _ (Reachable.clock _ 6300 h1)
  have h3 : Reachable run3 := Reachable.tick _ (Reachable.clock _ 9300 h2)
  have h4 : Reachable run4 := Reachable.tick _ (Reachable.clock _ 10300 h3)
  Reachable.tick _ (Reachable.clock _ 10800 h4)

theorem reachable_run6 : Reachable run6 :=
  Reachable.enter _ (Reachable.clock _ 20000 reachable_run5)

theorem reachable_run7 : Reachable run7 :=
  Reachable.tick _ (Reachable.clock _ 21000 reachable_run6)

theorem reachable_run8 : Reachable run8 :=
  Reachable.tick _ (Reachable.clock _ 23000 reachable_run7)

/-! ## C17: the running flag -/

/-- C17 (as stated, refuted): the sample run stopped by the emergency stop is
reachable, has `autoRunning = false`, and its `autoState` is `AUTO_MOULDING_PROMPT`,
not `AUTO_IDLE`. -/
theorem stopped_run_not_idle_counterexample :
    Reachable stoppedRun ∧ stoppedRun.autoRunning = false ∧
    stoppedRun.autoState = AUTO_MOULDING_PROMPT ∧ stoppedRun.autoState ≠ AUTO_IDLE :=
  ⟨Reachable.update run8 allPressed reachable_run8, by decide, by decide, by decide⟩

/-- C17 (amended): in every state reachable from `startAutoRun` by clock changes,
ticks, button presses, button polls (emergency stop included) and `update()` calls,
`autoRunning = false` holds exactly when `currentState` is not `RUN_AUTO`, and
`autoState` is never `AUTO_IDLE`. -/
theorem running_flag_tracks_run_screen (s : Controller) (h : Reachable s) :
    (s.autoRunning = false ↔ s.currentState ≠ RUN_AUTO) ∧ s.autoState ≠ AUTO_IDLE := by
  have hinv := phaseInv_of_reachable s h
  refine ⟨⟨fun hf hs => ?_, fun hne => ?_⟩, hinv.2.1⟩
  · have hon := hinv.1.mpr hs
    rw [hf] at hon
    exact absurd hon (by decide)
  · cases hb : s.autoRunning
    · rfl
    · exact absurd (hinv.1.mp hb) hne

/-- C17 (witness): the sample run in the prompt is running in `RUN_AUTO`; after the
emergency stop it is not running and in `MAIN_MENU`. -/
theorem running_flag_tracks_run_screen_witness :
    (run8.autoRunning = true ∧ run8.currentState = RUN_AUTO) ∧
    (stoppedRun.autoRunning = false ∧ stoppedRun.currentState = MAIN_MENU) ∧
    (stoppedRun.autoRunning = false ↔ stoppedRun.currentState ≠ RUN_AUTO) ∧
    run8.autoState ≠ AUTO_IDLE :=
  ⟨by decide, by decide,
   (running_flag_tracks_run_screen stoppedRun
      (Reachable.update run8 allPressed reachable_run8)).1,
   (running_flag_tracks_run_screen run8 reachable_run8).2⟩

/-! ## C18: `AUTO_COMPLETE` is never reached -/

/-- C18: no state reachable from `startAutoRun` has `autoState = AUTO_COMPLETE`; a
tick in `AUTO_DOOR_CLOSE` stays there or returns to `AUTO_MOULDING_PROMPT`; and an
`update()` of a running state that ends with `autoRunning = false` is the emergency
stop. -/
theorem complete_never_reached (s : Controller) (h : Reachable s) :
    s.autoState ≠ AUTO_COMPLETE ∧
    (s.autoState = AUTO_DOOR_CLOSE →
      (handleAutoSequence s).autoState = AUTO_DOOR_CLOSE ∨
      (handleAutoSequence s).autoState = AUTO_MOULDING_PROMPT) ∧
    (∀ b, s.autoRunning = true → (update s b).autoRunning = false →
      update s b = emergencyStop s) := by
  have hinv := phaseInv_of_reachable s h
  refine ⟨hinv.2.2.1, ?_, fun b hr hoff => update_stops_only_by_abort s b hinv hr hoff⟩
  intro hd
  rw [(handleAutoSequence_core s).1]
  unfold autoSwitch
  simp only [hd]
  split_ifs <;> simp [displayAutoStatus, lcdDo, hd]

/-- C18 (witness): in the sample run the door-close phase ends in the moulding prompt,
and the update that stops the run from the prompt is the emergency stop. -/
theorem complete_never_reached_witness :
    run7.autoState = AUTO_DOOR_CLOSE ∧ run8.autoState = AUTO_MOULDING_PROMPT ∧
    run8.autoState ≠ AUTO_COMPLETE ∧
    (run8.autoState = AUTO_DOOR_CLOSE ∨ run8.autoState = AUTO_MOULDING_PROMPT) ∧
    update run8 allPressed = emergencyStop run8 :=
  ⟨by decide, by decide, (complete_never_reached run8 reachable_run8).1,
   (complete_never_reached (setClock run7 23000) (Reachable.clock _ 23000 reachable_run7)).2.1
     rfl,
   (complete_never_reached run8 reachable_run8).2.2 allPressed rfl (by decide)⟩

/-! ## C19: committing an edit -/

theorem onEnterPressed_edit (s : Controller) (hs : s.currentState = EDIT_TIMER) :
    onEnterPressed s
      = displaySettingsMenu
          { saveTimersToEEPROM (saveTimerEdit s) with currentState := SETTINGS_MENU } := by
  simp [onEnterPressed, hs]

theorem saveTimerEdit_timers (s : Controller) :
    (saveTimerEdit s).timers
      = if s.editingTimer = STARCH_TIMER then { s.timers with starchOnTime := s.timerEditValue }
        else if s.editingTimer = PAPER_TIMER then { s.timers with paperOnTime := s.timerEditValue }
        else if s.editingTimer = WATER_TIMER then
          { s.timers with waterPumpTime := s.timerEditValue }
        else if s.editingTimer = MIXING_TIMER then { s.timers with mixingTime := s.timerEditValue }
        else if s.editingTimer = DOOR_TIMER then { s.timers with doorOpenTime := s.timerEditValue }
        else s.timers := by
  unfold saveTimerEdit
  simp only []
  split_ifs <;> rfl

theorem saveTimerEdit_fits32 (s : Controller) (hf : s.timers.fits32)
    (hv : s.timerEditValue < ULONG_MOD) : (saveTimerEdit s).timers.fits32 := by
  rw [saveTimerEdit_timers]
  obtain ⟨h1, h2, h3, h4, h5⟩ := hf
  split_ifs <;> exact ⟨by assumption, by assumption, by assumption, by assumption, by assumption⟩

/-- C19: an Enter press in `EDIT_TIMER` mode returns to `SETTINGS_MENU`; for an
`editingTimer` index of 0..4 it sets the selected timer to `timerEditValue` and leaves
the other four as they were; and when the timers and the edited value fit 32 bits the
record is persisted at once: `loadTimersFromEEPROM` on the resulting state yields the
timers that state holds in memory. -/
theorem edit_commit (s : Controller) (hs : s.currentState = EDIT_TIMER)
    (hf : s.timers.fits32) (hv : s.timerEditValue < ULONG_MOD) :
    (onEnterPressed s).currentState = SETTINGS_MENU ∧
    (s.editingTimer = STARCH_TIMER →
      (onEnterPressed s).timers = { s.timers with starchOnTime := s.timerEditValue }) ∧
    (s.editingTimer = PAPER_TIMER →
      (onEnterPressed s).timers = { s.timers with paperOnTime := s.timerEditValue }) ∧
    (s.editingTimer = WATER_TIMER →
      (onEnterPressed s).timers = { s.timers with waterPumpTime := s.timerEditValue }) ∧
    (s.editingTimer = MIXING_TIMER →
      (onEnterPressed s).timers = { s.timers with mixingTime := s.timerEditValue }) ∧
    (s.editingTimer = DOOR_TIMER →
      (onEnterPressed s).timers = { s.timers with doorOpenTime := s.timerEditValue }) ∧
    (loadTimersFromEEPROM (onEnterPressed s)).timers = (onEnterPressed s).timers := by
  have ht : (onEnterPressed s).timers = (saveTimerEdit s).timers := by
    rw [onEnterPressed_edit s hs]; simp [displaySettingsMenu, lcdDo, saveTimersToEEPROM]
  have he : (onEnterPressed s).eeprom = (saveTimersToEEPROM (saveTimerEdit s)).eeprom := by
    rw [onEnterPressed_edit s hs]; simp [displaySettingsMenu, lcdDo]
  have hc : (onEnterPressed s).currentState = SETTINGS_MENU := by
    rw [onEnterPressed_edit s hs]; simp [displaySettingsMenu, lcdDo]
  have hm : (onEnterPressed s).eeprom.read EEPROM_MAGIC_ADDRESS = EEPROM_MAGIC_NUMBER := by
    rw [he]; exact saveTimersToEEPROM_magic _
  refine ⟨hc, ?_, ?_, ?_, ?_, ?_, ?_⟩
  · intro h; rw [ht, saveTimerEdit_timers]; simp [h]
  · intro h; rw [ht, saveTimerEdit_timers]; simp [h, PAPER_TIMER, STARCH_TIMER]
  · intro h; rw [ht, saveTimerEdit_timers]; simp [h, WATER_TIMER, PAPER_TIMER, STARCH_TIMER]
  · intro h; rw [ht, saveTimerEdit_timers]
    simp [h, MIXING_TIMER, WATER_TIMER, PAPER_TIMER, STARCH_TIMER]
  · intro h; rw [ht, saveTimerEdit_timers]
    simp [h, DOOR_TIMER, MIXING_TIMER, WATER_TIMER, PAPER_TIMER, STARCH_TIMER]
  · rw [loadTimersFromEEPROM_marked _ hm]
    show storedTimers (onEnterPressed s).eeprom = (onEnterPressed s).timers
    rw [he, ht]
    exact saveTimersToEEPROM_stored _ (saveTimerEdit_fits32 s hf hv)

/-- C19 (witness): committing the mixing timer raised from 30000 to 31000 changes that
field alone, returns to the settings menu, and a load reads the same five values
back. -/
theorem edit_commit_witness :
    editMixing.timerEditValue = 31000 ∧
    (onEnterPressed editMixing).currentState = SETTINGS_MENU ∧
    (onEnterPressed editMixing).timers
      = { starchOnTime := 5000, paperOnTime := 10000, waterPumpTime := 8000,
          mixingTime := 31000, doorOpenTime := 5000 } ∧
    (loadTimersFromEEPROM (onEnterPressed editMixing)).timers
      = { starchOnTime := 5000, paperOnTime := 10000, waterPumpTime := 8000,
          mixingTime := 31000, doorOpenTime := 5000 } :=
  ⟨by decide,
   (edit_commit editMixing rfl (by decide) (by decide)).1,
   (edit_commit editMixing rfl (by decide) (by decide)).2.2.2.2.1 rfl,
   (edit_commit editMixing rfl (by decide) (by decide)).2.2.2.2.2.2.trans (by decide)⟩

/-! ## C20: the relays follow the phase -/

theorem relaysLit_of_match (s : Controller) (hm : relaysMatchPhase s)
    (hi : s.autoState ≠ AUTO_IDLE) (hc : s.autoState ≠ AUTO_COMPLETE) :
    phaseRelays s.autoState = some (relaysLit s) := by
  unfold relaysMatchPhase relayOn at hm
  obtain ⟨h1, h2, h3, h4, h5⟩ := hm
  cases ha : s.autoState <;>
    simp_all [phaseRelays, relaysLit, List.filter, LOW]

/-- C20: in every state reachable from `startAutoRun` with `autoRunning = true`, the
relays that are on are those the phase prescribes: the mixer alone in mixer prep,
mixing, the moulding prompt and door close; mixer and shredder in the shredder phase;
mixer and feeder in the feeder phase; mixer and pump in the pump phase; mixer and
door in door open. Hence no two of shredder, feeder and pump are on together and the
door is on exactly in `AUTO_DOOR_OPEN`. -/
theorem relays_follow_phase (s : Controller) (h : Reachable s) (hr : s.autoRunning = true) :
    phaseRelays s.autoState = some (relaysLit s) ∧
    ¬ (relayOn s RELAY_PAPER_SHREDDER ∧ relayOn s RELAY_STARCH_FEEDER) ∧
    ¬ (relayOn s RELAY_PAPER_SHREDDER ∧ relayOn s RELAY_WATER_PUMP) ∧
    ¬ (relayOn s RELAY_STARCH_FEEDER ∧ relayOn s RELAY_WATER_PUMP) ∧
    (relayOn s RELAY_MIXER_DOOR ↔ s.autoState = AUTO_DOOR_OPEN) := by
  have hinv := phaseInv_of_reachable s h
  have hm := hinv.2.2.2 hr
  refine ⟨relaysLit_of_match s hm hinv.2.1 hinv.2.2.1, ?_, ?_, ?_, hm.2.2.2.2⟩
  · rintro ⟨a, b⟩
    have h1 := hm.2.1.mp a
    have h2 := hm.2.2.1.mp b
    rw [h1] at h2
    exact absurd h2 (by decide)
  · rintro ⟨a, b⟩
    have h1 := hm.2.1.mp a
    have h2 := hm.2.2.2.1.mp b
    rw [h1] at h2
    exact absurd h2 (by decide)
  · rintro ⟨a, b⟩
    have h1 := hm.2.2.1.mp a
    have h2 := hm.2.2.2.1.mp b
    rw [h1] at h2
    exact absurd h2 (by decide)

/-- C20 (witness): in door open the sample run has the mixer and the door on, and back
in the prompt the mixer alone. -/
theorem relays_follow_phase_witness :
    run6.autoState = AUTO_DOOR_OPEN ∧
    phaseRelays AUTO_DOOR_OPEN = some (relaysLit run6) ∧
    relaysLit run6 = [RELAY_MIXER, RELAY_MIXER_DOOR] ∧
    run8.autoState = AUTO_MOULDING_PROMPT ∧
    phaseRelays AUTO_MOULDING_PROMPT = some (relaysLit run8) ∧
    ¬ relayOn run8 RELAY_MIXER_DOOR :=
  ⟨by decide,
   (relays_follow_phase run6 reachable_run6 rfl).1,
   by decide,
   by decide,
   (relays_follow_phase run8 reachable_run8 rfl).1,
   fun hd => absurd ((relays_follow_phase run8 reachable_run8 rfl).2.2.2.2.mp hd) (by decide)⟩

/-! ## C21: elapsed time across clock rollover -/

theorem usub_uadd_cancel (s e : Nat) (he : e < ULONG_MOD) :
    usub (uadd s e) s = e := by
  unfold usub uadd ULONG_MOD at *
  omega

theorem autoSwitch_changes_iff (c : Controller) (t d : Nat) (hd : phaseDeadline c = some d) :
    (autoSwitch c t).autoState ≠ c.autoState ↔ d ≤ usub t c.stateStartTime := by
  unfold phaseDeadline at hd
  unfold autoSwitch
  cases ha : c.autoState <;> simp [ha] at hd <;> subst hd <;> simp only [] <;>
    split_ifs with hc <;>
    simp_all [displayAutoStatus, lcdDo, setRelay, delay, relayWrite]

/-- C21: for every `stateStartTime` and every true elapsed time `e` below 2^32, when
the clock reads `(stateStartTime + e) mod 2^32` the elapsed time `handleAutoSequence`
computes is `e`, also when the clock has wrapped; so in a timed phase with duration
`d` the tick leaves the phase exactly when `d ≤ e`. -/
theorem elapsed_across_rollover (c : Controller) (e : Nat) (he : e < ULONG_MOD) :
    (setClock c (c.stateStartTime + e)).clock = uadd c.stateStartTime e ∧
    usub (setClock c (c.stateStartTime + e)).clock
      (setClock c (c.stateStartTime + e)).stateStartTime = e ∧
    ∀ d, phaseDeadline c = some d →
      ((handleAutoSequence (setClock c (c.stateStartTime + e))).autoState ≠ c.autoState
        ↔ d ≤ e) := by
  have h1 : (setClock c (c.stateStartTime + e)).clock = uadd c.stateStartTime e := rfl
  have h2 : usub (setClock c (c.stateStartTime + e)).clock
      (setClock c (c.stateStartTime + e)).stateStartTime = e := by
    rw [h1]; exact usub_uadd_cancel _ _ he
  refine ⟨h1, h2, fun d hd => ?_⟩
  rw [(handleAutoSequence_core _).1]
  have h3 := autoSwitch_changes_iff (setClock c (c.stateStartTime + e))
    (setClock c (c.stateStartTime + e)).clock d hd
  rw [h2] at h3
  exact h3

/-- C21 (witness): mixer prep started at 4294967000; 2000 ms later the clock has
wrapped to 1704, the elapsed time is 2000 and the tick moves on to the shredder
phase, while 1999 ms after the start (clock 1703) it does not. -/
theorem elapsed_across_rollover_witness :
    (setClock lateStart (4294967000 + 2000)).clock = 1704 ∧
    usub (setClock lateStart (4294967000 + 2000)).clock
      (setClock lateStart (4294967000 + 2000)).stateStartTime = 2000 ∧
    (handleAutoSequence (setClock lateStart (4294967000 + 2000))).autoState
      = AUTO_PAPER_SHREDDER ∧
    (handleAutoSequence (setClock lateStart (4294967000 + 2000))).autoState
      ≠ lateStart.autoState ∧
    ¬ (handleAutoSequence (setClock lateStart (4294967000 + 1999))).autoState
      ≠ lateStart.autoState :=
  ⟨by decide,
   (elapsed_across_rollover lateStart 2000 (by decide)).2.1,
   by decide,
   ((elapsed_across_rollover lateStart 2000 (by decide)).2.2 2000 rfl).mpr
     (by decide),
   fun h => absurd
     (((elapsed_across_rollover lateStart 1999 (by decide)).2.2 2000 rfl).mp h)
     (by decide)⟩

/-! ## C22: the menu index -/

theorem menuInv_congr (s s2 : Controller) (h : menuInv s)
    (h1 : s2.currentState = s.currentState) (h2 : s2.currentMenuIndex = s.currentMenuIndex)
    (h3 : s2.relayStates.length = s.relayStates.length) : menuInv s2 := by
  unfold menuInv at *
  rw [h1, h2, h3]
  exact h

theorem menuInv_of_main (s : Controller) (h1 : s.currentState = MAIN_MENU)
    (h2 : s.currentMenuIndex = 0) (h3 : s.relayStates.length = 5) : menuInv s := by
  unfold menuInv
  rw [h1, h2]
  refine ⟨fun n hn => ?_, fun hx => absurd hx (by decide), h3⟩
  simp [menuCount, MAIN_MENU_COUNT] at hn
  omega

theorem onUpPressed_menu (s : Controller) :
    (onUpPressed s).currentState = s.currentState ∧
    (onUpPressed s).relayStates = s.relayStates ∧
    (onUpPressed s).currentMenuIndex
      = match menuCount s.currentState with
        | some n => (s.currentMenuIndex - 1 + n).tmod n
        | none => s.currentMenuIndex := by
  unfold onUpPressed
  simp only []
  cases hc : s.currentState <;>
    simp [hc, menuCount, displayMainMenu, displaySettingsMenu, displayTestMenu, lcdDo]
  split_ifs <;> simp [hc, displayTimerEdit, lcdDo]

theorem onDownPressed_menu (s : Controller) :
    (onDownPressed s).currentState = s.currentState ∧
    (onDownPressed s).relayStates = s.relayStates ∧
    (onDownPressed s).currentMenuIndex
      = match menuCount s.currentState with
        | some n => (s.currentMenuIndex + 1).tmod n
        | none => s.currentMenuIndex := by
  unfold onDownPressed
  simp only []
  cases hc : s.currentState <;>
    simp [hc, menuCount, displayMainMenu, displaySettingsMenu, displayTestMenu, lcdDo]
  split_ifs <;> simp [hc, displayTimerEdit, lcdDo]

theorem menuCount_pos (c : MenuState) (n : Int) (h : menuCount c = some n) : 0 < n := by
  cases c <;> simp [menuCount, MAIN_MENU_COUNT, SETTINGS_COUNT, TEST_COUNT] at h <;> omega

theorem menu_step (s : Controller) (h : menuInv s) (n : Int)
    (hn : menuCount s.currentState = some n) :
    (onUpPressed s).currentMenuIndex = (s.currentMenuIndex - 1 + n) % n ∧
    (onDownPressed s).currentMenuIndex = (s.currentMenuIndex + 1) % n := by
  have hp := menuCount_pos _ _ hn
  have hb := h.1 n hn
  rw [(onUpPressed_menu s).2.2, (onDownPressed_menu s).2.2, hn]
  simp only []
  rw [Int.tmod_eq_emod (by omega) (by omega), Int.tmod_eq_emod (by omega) (by omega)]
  exact ⟨rfl, rfl⟩

theorem menuInv_up (s : Controller) (h : menuInv s) : menuInv (onUpPressed s) := by
  cases hm : menuCount s.currentState with
  | none =>
    refine menuInv_congr s _ h (onUpPressed_menu s).1 ?_ (by rw [(onUpPressed_menu s).2.1])
    rw [(onUpPressed_menu s).2.2, hm]
  | some n =>
    have hp := menuCount_pos _ _ hm
    have hb := h.1 n hm
    have hstep := (menu_step s h n hm).1
    refine ⟨fun k hk => ?_, fun he => ?_, ?_⟩
    · rw [(onUpPressed_menu s).1, hm] at hk
      injection hk with hk
      subst hk
      rw [hstep]
      exact ⟨Int.emod_nonneg _ (by omega), Int.emod_lt_of_pos _ hp⟩
    · rw [(onUpPressed_menu s).1] at he
      rw [he] at hm
      simp [menuCount] at hm
    · rw [(onUpPressed_menu s).2.1]; exact h.2.2

theorem menuInv_down (s : Controller) (h : menuInv s) : menuInv (onDownPressed s) := by
  cases hm : menuCount s.currentState with
  | none =>
    refine menuInv_congr s _ h (onDownPressed_menu s).1 ?_ (by rw [(onDownPressed_menu s).2.1])
    rw [(onDownPressed_menu s).2.2, hm]
  | some n =>
    have hp := menuCount_pos _ _ hm
    have hb := h.1 n hm
    have hstep := (menu_step s h n hm).2
    refine ⟨fun k hk => ?_, fun he => ?_, ?_⟩
    · rw [(onDownPressed_menu s).1, hm] at hk
      injection hk with hk
      subst hk
      rw [hstep]
      exact ⟨Int.emod_nonneg _ (by omega), Int.emod_lt_of_pos _ hp⟩
    · rw [(onDownPressed_menu s).1] at he
      rw [he] at hm
      simp [menuCount] at hm
    · rw [(onDownPressed_menu s).2.1]; exact h.2.2

theorem menuInv_of_run (s : Controller) (h1 : s.currentState = RUN_AUTO)
    (h3 : s.relayStates.length = 5) : menuInv s := by
  unfold menuInv
  rw [h1]
  exact ⟨fun n hn => by simp [menuCount] at hn, fun hx => absurd hx (by decide), h3⟩

theorem enterTimerEdit_menu (s : Controller) (i : Int) :
    (enterTimerEdit s i).currentState = EDIT_TIMER ∧
    (enterTimerEdit s i).currentMenuIndex = s.currentMenuIndex ∧
    (enterTimerEdit s i).relayStates = s.relayStates := by
  unfold enterTimerEdit
  simp only []
  split_ifs <;> simp [displayTimerEdit, lcdDo]

theorem toggleTestRelay_menu (s : Controller) (i : Int) :
    (toggleTestRelay s i).currentState = s.currentState ∧
    (toggleTestRelay s i).currentMenuIndex = s.currentMenuIndex ∧
    (toggleTestRelay s i).relayStates.length = s.relayStates.length := by
  unfold toggleTestRelay
  simp only []
  split_ifs <;> simp [displayTestMenu, lcdDo, setRelay, delay, relayWrite]

theorem saveTimerEdit_menu (s : Controller) :
    (saveTimerEdit s).currentMenuIndex = s.currentMenuIndex ∧
    (saveTimerEdit s).relayStates = s.relayStates := by
  unfold saveTimerEdit
  simp only []
  split_ifs <;> simp

theorem startAutoRun_relayStates (s : Controller) :
    (startAutoRun s).relayStates = s.relayStates := by
  simp [startAutoRun, displayAutoStatus, lcdDo, setRelay, delay, allRelaysOff, relayWrite]

theorem menuInv_of_zero (s : Controller) (h2 : s.currentMenuIndex = 0)
    (h3 : s.relayStates.length = 5) : menuInv s := by
  unfold menuInv
  rw [h2]
  refine ⟨fun n hn => ?_, fun _ => by decide, h3⟩
  have hp := menuCount_pos _ _ hn
  omega

theorem onEnterPressed_main (s : Controller) (hc : s.currentState = MAIN_MENU) :
    onEnterPressed s
      = if s.currentMenuIndex = SETTINGS then
          displaySettingsMenu { s with currentState := SETTINGS_MENU, currentMenuIndex := 0 }
        else if s.currentMenuIndex = RUN_AUTO_OPTION then startAutoRun s
        else if s.currentMenuIndex = TEST_MACHINE_OPTION then
          displayTestMenu { s with currentState := TEST_MACHINE, currentMenuIndex := 0 }
        else s := by
  simp [onEnterPressed, hc]

theorem onEnterPressed_settings (s : Controller) (hc : s.currentState = SETTINGS_MENU) :
    onEnterPressed s
      = if s.currentMenuIndex = BACK_TO_MAIN then
          displayMainMenu { s with currentState := MAIN_MENU, currentMenuIndex := 0 }
        else enterTimerEdit s s.currentMenuIndex := by
  simp [onEnterPressed, hc]

theorem onEnterPressed_test (s : Controller) (hc : s.currentState = TEST_MACHINE) :
    onEnterPressed s
      = if s.currentMenuIndex = BACK_FROM_TEST then
          displayMainMenu
            { allRelaysOff s with
              relayStates := [false, false, false, false, false]
              currentState := MAIN_MENU
              currentMenuIndex := 0 }
        else toggleTestRelay s s.currentMenuIndex := by
  simp [onEnterPressed, hc]

theorem onEnterPressed_run (s : Controller) (hc : s.currentState = RUN_AUTO) :
    (onEnterPressed s).currentState = RUN_AUTO ∧
      (onEnterPressed s).relayStates = s.relayStates ∨
    (onEnterPressed s).currentMenuIndex = 0 ∧ (onEnterPressed s).relayStates = s.relayStates := by
  simp only [onEnterPressed, hc]
  simp only [reduceCtorEq, if_false, if_true]
  split_ifs <;>
    simp [displayAutoStatus, displayMainMenu, lcdDo, setRelay, delay, relayWrite, allRelaysOff, hc]

theorem menuInv_enter (s : Controller) (h : menuInv s) : menuInv (onEnterPressed s) := by
  obtain ⟨hmenu, hedit, hlen⟩ := h
  cases hc : s.currentState
  · rw [onEnterPressed_main s hc]
    split_ifs
    · apply menuInv_of_zero <;> simp [displaySettingsMenu, lcdDo, hlen]
    · exact menuInv_of_run _ (startAutoRun_fields s).1
        ((congrArg List.length (startAutoRun_relayStates s)).trans hlen)
    · apply menuInv_of_zero <;> simp [displayTestMenu, lcdDo, hlen]
    · exact ⟨hmenu, hedit, hlen⟩
  · have hb := hmenu SETTINGS_COUNT (by rw [hc]; rfl)
    rw [onEnterPressed_settings s hc]
    split_ifs with h1
    · apply menuInv_of_zero <;> simp [displayMainMenu, lcdDo, hlen]
    · have hf := enterTimerEdit_menu s s.currentMenuIndex
      refine ⟨fun n hn => ?_, fun _ => ?_, ?_⟩
      · rw [hf.1] at hn; simp [menuCount] at hn
      · rw [hf.2.1]
        unfold BACK_TO_MAIN SETTINGS_COUNT at *
        omega
      · rw [hf.2.2]; exact hlen
  · have hr := onEnterPressed_run s hc
    rcases hr with ⟨h1, h2⟩ | ⟨h1, h2⟩
    · exact menuInv_of_run _ h1 ((congrArg List.length h2).trans hlen)
    · exact menuInv_of_zero _ h1 ((congrArg List.length h2).trans hlen)
  · rw [onEnterPressed_test s hc]
    split_ifs with h1
    · apply menuInv_of_zero <;> simp [displayMainMenu, lcdDo]
    · have hf := toggleTestRelay_menu s s.currentMenuIndex
      exact menuInv_congr s _ ⟨hmenu, hedit, hlen⟩ (hf.1.trans rfl) hf.2.1 hf.2.2
  · have hb := hedit hc
    rw [onEnterPressed_edit s hc]
    have hi : (displaySettingsMenu
        { saveTimersToEEPROM (saveTimerEdit s) with currentState := SETTINGS_MENU }).currentMenuIndex
        = s.currentMenuIndex := by
      simp [displaySettingsMenu, lcdDo, saveTimersToEEPROM, (saveTimerEdit_menu s).1]
    have hl : (displaySettingsMenu
        { saveTimersToEEPROM (saveTimerEdit s) with currentState := SETTINGS_MENU }).relayStates
        = s.relayStates := by
      simp [displaySettingsMenu, lcdDo, saveTimersToEEPROM, (saveTimerEdit_menu s).2]
    refine ⟨fun n hn => ?_, fun he => ?_, ?_⟩
    · simp [displaySettingsMenu, lcdDo, menuCount] at hn
      rw [hi]
      unfold BACK_TO_MAIN SETTINGS_COUNT at *
      omega
    · simp [displaySettingsMenu, lcdDo] at he
    · rw [hl]; exact hlen

theorem handleAutoSequence_menu (s : Controller) :
    (handleAutoSequence s).currentState = s.currentState ∧
    (handleAutoSequence s).currentMenuIndex = s.currentMenuIndex ∧
    (handleAutoSequence s).relayStates = s.relayStates := by
  unfold handleAutoSequence autoSwitch
  simp only [millis]
  cases ha : s.autoState <;> simp only [] <;> split_ifs <;>
    simp [displayAutoStatus, lcdDo, setRelay, delay, relayWrite]

theorem begin_menu (s : Controller) :
    (begin s).currentState = s.currentState ∧
    (begin s).currentMenuIndex = s.currentMenuIndex ∧
    (begin s).relayStates = s.relayStates := by
  unfold begin loadTimersFromEEPROM
  simp only []
  split_ifs <;>
    simp [displayMainMenu, lcdDo, delay, allRelaysOff, relayWrite, saveTimersToEEPROM,
      setDefaultTimers]

theorem menuInv_init (mem : Controller) : menuInv (MouldBotController mem) :=
  menuInv_of_zero _ rfl rfl

theorem menuInv_begin (s : Controller) (h : menuInv s) : menuInv (begin s) :=
  menuInv_congr s _ h (begin_menu s).1 (begin_menu s).2.1
    (congrArg List.length (begin_menu s).2.2)

theorem menuInv_tick (s : Controller) (h : menuInv s) : menuInv (handleAutoSequence s) :=
  menuInv_congr s _ h (handleAutoSequence_menu s).1 (handleAutoSequence_menu s).2.1
    (congrArg List.length (handleAutoSequence_menu s).2.2)

theorem menuInv_emergencyStop (s : Controller) (h : menuInv s) : menuInv (emergencyStop s) := by
  apply menuInv_of_zero
  · exact (emergencyStop_fields s).2.2.1
  · have : (emergencyStop s).relayStates = s.relayStates := by
      simp [emergencyStop, displayMainMenu, lcdDo, delay, allRelaysOff, relayWrite]
    rw [this]; exact h.2.2

theorem menuInv_handleUpButton (s : Controller) (t : Nat) (r : Bool) (h : menuInv s) :
    menuInv (handleUpButton s t r) := by
  unfold handleUpButton
  simp only []
  split_ifs
  · exact menuInv_up s h
  · exact h
  · exact h

theorem menuInv_handleEnterButton (s : Controller) (t : Nat) (r : Bool) (h : menuInv s) :
    menuInv (handleEnterButton s t r) := by
  unfold handleEnterButton
  simp only []
  split_ifs
  · exact menuInv_enter s h
  · exact h
  · exact h

theorem menuInv_handleDownButton (s : Controller) (t : Nat) (r : Bool) (h : menuInv s) :
    menuInv (handleDownButton s t r) := by
  unfold handleDownButton
  simp only []
  split_ifs
  · exact menuInv_down s h
  · exact h
  · exact h

theorem menuInv_handleButtons (s : Controller) (b : Buttons) (h : menuInv s) :
    menuInv (handleButtons s b) := by
  unfold handleButtons
  simp only []
  split_ifs
  · exact menuInv_emergencyStop s h
  · exact menuInv_handleDownButton _ _ _
      (menuInv_handleEnterButton _ _ _ (menuInv_handleUpButton _ _ _ h))

theorem menuInv_update (s : Controller) (b : Buttons) (h : menuInv s) :
    menuInv (update s b) := by
  unfold update
  simp only []
  split_ifs
  · exact menuInv_tick _ (menuInv_handleButtons s b h)
  · exact menuInv_handleButtons s b h

theorem menuInv_of_reachable (s : Controller) (h : MenuReachable s) : menuInv s := by
  induction h with
  | init mem => exact menuInv_init mem
  | begin s _ ih => exact menuInv_begin s ih
  | clock s t _ ih => exact ih
  | up s _ ih => exact menuInv_up s ih
  | down s _ ih => exact menuInv_down s ih
  | enter s _ ih => exact menuInv_enter s ih
  | tick s _ ih => exact menuInv_tick s ih
  | buttons s b _ ih => exact menuInv_handleButtons s b ih
  | update s b _ ih => exact menuInv_update s b ih

theorem menuCount_values (c : MenuState) (n : Int) (h : menuCount c = some n) :
    n = 3 ∨ n = 6 := by
  cases c <;> simp [menuCount, MAIN_MENU_COUNT, SETTINGS_COUNT, TEST_COUNT] at h <;> omega

theorem menu_up_down_inverse (s : Controller) (h : menuInv s) (n : Int)
    (hn : menuCount s.currentState = some n) :
    (onDownPressed (onUpPressed s)).currentMenuIndex = s.currentMenuIndex ∧
    (onUpPressed (onDownPressed s)).currentMenuIndex = s.currentMenuIndex := by
  have hb := h.1 n hn
  have hu := menu_step s h n hn
  have hn1 : menuCount (onUpPressed s).currentState = some n := by
    rw [(onUpPressed_menu s).1]; exact hn
  have hn2 : menuCount (onDownPressed s).currentState = some n := by
    rw [(onDownPressed_menu s).1]; exact hn
  have hdu := (menu_step (onUpPressed s) (menuInv_up s h) n hn1).2
  have hud := (menu_step (onDownPressed s) (menuInv_down s h) n hn2).1
  rw [hu.1] at hdu
  rw [hu.2] at hud
  rw [hdu, hud]
  rcases menuCount_values _ _ hn with h3 | h6
  · subst h3; omega
  · subst h6; omega

/-- C22: in every state reachable from the constructor by `begin()`, Up, Down and
Enter presses (and clock changes, ticks, button polls and `update()` calls), the menu
index satisfies `0 ≤ currentMenuIndex < N` with N = 3 in `MAIN_MENU` and N = 6 in
`SETTINGS_MENU` and `TEST_MACHINE`; there Up yields `(index - 1 + N) mod N`, Down
yields `(index + 1) mod N`, and each undoes the other. Hence where Enter calls
`toggleTestRelay` its argument is in 0..4 and within `relayStates`, and where Enter
calls `enterTimerEdit` its argument is in 0..4. -/
theorem menu_index_in_range (s : Controller) (h : MenuReachable s) :
    (s.currentState = MAIN_MENU → 0 ≤ s.currentMenuIndex ∧ s.currentMenuIndex < 3) ∧
    (s.currentState = SETTINGS_MENU → 0 ≤ s.currentMenuIndex ∧ s.currentMenuIndex < 6) ∧
    (s.currentState = TEST_MACHINE → 0 ≤ s.currentMenuIndex ∧ s.currentMenuIndex < 6) ∧
    (∀ n, menuCount s.currentState = some n →
      (onUpPressed s).currentMenuIndex = (s.currentMenuIndex - 1 + n) % n ∧
      (onDownPressed s).currentMenuIndex = (s.currentMenuIndex + 1) % n ∧
      (onDownPressed (onUpPressed s)).currentMenuIndex = s.currentMenuIndex ∧
      (onUpPressed (onDownPressed s)).currentMenuIndex = s.currentMenuIndex) ∧
    (s.currentState = TEST_MACHINE → s.currentMenuIndex ≠ BACK_FROM_TEST →
      onEnterPressed s = toggleTestRelay s s.currentMenuIndex ∧
      0 ≤ s.currentMenuIndex ∧ s.currentMenuIndex ≤ 4 ∧
      s.currentMenuIndex.toNat < s.relayStates.length) ∧
    (s.currentState = SETTINGS_MENU → s.currentMenuIndex ≠ BACK_TO_MAIN →
      onEnterPressed s = enterTimerEdit s s.currentMenuIndex ∧
      0 ≤ s.currentMenuIndex ∧ s.currentMenuIndex ≤ 4) := by
  have hinv := menuInv_of_reachable s h
  refine ⟨fun hc => ?_, fun hc => ?_, fun hc => ?_, fun n hn => ?_, fun hc hi => ?_,
    fun hc hi => ?_⟩
  · exact hinv.1 3 (by rw [hc]; rfl)
  · exact hinv.1 6 (by rw [hc]; rfl)
  · exact hinv.1 6 (by rw [hc]; rfl)
  · exact ⟨(menu_step s hinv n hn).1, (menu_step s hinv n hn).2,
      (menu_up_down_inverse s hinv n hn).1, (menu_up_down_inverse s hinv n hn).2⟩
  · have hb := hinv.1 6 (by rw [hc]; rfl)
    have hl := hinv.2.2
    refine ⟨?_, hb.1, ?_, ?_⟩
    · rw [onEnterPressed_test s hc, if_neg hi]
    · unfold BACK_FROM_TEST at hi; omega
    · unfold BACK_FROM_TEST at hi; omega
  · have hb := hinv.1 6 (by rw [hc]; rfl)
    refine ⟨?_, hb.1, ?_⟩
    · rw [onEnterPressed_settings s hc, if_neg hi]
    · unfold BACK_TO_MAIN at hi; omega

theorem reachable_menuAtTest : MenuReachable menuAtTest :=
  MenuReachable.up _ (MenuReachable.begin _ (MenuReachable.init powerOnMemory))

theorem reachable_testAtDoor : MenuReachable testAtDoor :=
  MenuReachable.up _ (MenuReachable.up _ (MenuReachable.enter _ reachable_menuAtTest))

/-- C22 (witness): on a fresh board one Up press wraps the main-menu index from 0 to 2
and a Down press brings it back; in the test menu two Up presses give 5 and then 4,
where Enter toggles relay 4, the door. -/
theorem menu_index_in_range_witness :
    freshBoard.currentMenuIndex = 0 ∧ menuAtTest.currentMenuIndex = 2 ∧
    (onDownPressed menuAtTest).currentMenuIndex = 0 ∧
    testAtDoor.currentState = TEST_MACHINE ∧ testAtDoor.currentMenuIndex = 4 ∧
    (0 ≤ testAtDoor.currentMenuIndex ∧ testAtDoor.currentMenuIndex < 6) ∧
    onEnterPressed testAtDoor = toggleTestRelay testAtDoor 4 ∧
    testAtDoor.currentMenuIndex.toNat < testAtDoor.relayStates.length ∧
    relayOn (onEnterPressed testAtDoor) RELAY_MIXER_DOOR :=
  ⟨by decide, by decide,
   ((menu_index_in_range freshBoard
      (MenuReachable.begin _ (MenuReachable.init powerOnMemory))).2.2.2.1 3 rfl).2.2.1,
   by decide, by decide,
   (menu_index_in_range testAtDoor reachable_testAtDoor).2.2.1 rfl,
   ((menu_index_in_range testAtDoor reachable_testAtDoor).2.2.2.2.1 rfl (by decide)).1,
   ((menu_index_in_range testAtDoor reachable_testAtDoor).2.2.2.2.1 rfl (by decide)).2.2.2,
   by decide⟩

end MouldBot
